import Mathlib

/-!
Verification development for the data-marshalling boundary of the
`tandemdrive/rust-postgres` client: the error-field parser
(`DbError::parse`), the error taxonomy (`Kind` / `Error`), the generic
range codec (`Range<T>` `ToSql`/`FromSql`), and the tuple `FromRow`
row-mapping contract.  Rust functions are shallowly embedded as
executable Lean functions; machine integers are `Nat` with explicit
bounds, fallible code returns `Except`.
-/

namespace Pg

/-- One `(fieldCode, value)` pair of a server error/notice message, as
handed to `DbError::parse` by `ErrorFields`.  The code is a single byte,
modelled as a `Char` (all recognized codes are ASCII). -/
structure Field where
  type_ : Char
  value : String
deriving DecidableEq

/-- The severity of a Postgres error or notice
(`tokio-postgres/src/error/mod.rs`, `enum Severity`). -/
inductive Severity where
  | Panic
  | Fatal
  | Error
  | Warning
  | Notice
  | Debug
  | Info
  | Log
deriving DecidableEq

/-- Source `Severity::from_str`: exactly the 8 literal tokens are recognized. -/
def Severity.from_str (s : String) : Option Severity :=
  if s = "PANIC" then some Severity.Panic
  else if s = "FATAL" then some Severity.Fatal
  else if s = "ERROR" then some Severity.Error
  else if s = "WARNING" then some Severity.Warning
  else if s = "NOTICE" then some Severity.Notice
  else if s = "DEBUG" then some Severity.Debug
  else if s = "INFO" then some Severity.Info
  else if s = "LOG" then some Severity.Log
  else none

/-- SQLSTATE code.  `SqlState::from_code` (in the generated `sqlstate`
module, not under `src/`) never fails: unknown five-character codes map
to an `Other` carrier of the raw string.  We model the state as the raw
code string, which is what `DbError::code` exposes. -/
structure SqlState where
  code : String
deriving DecidableEq

/-- Source `SqlState::from_code`: total, keeps the raw code string. -/
def SqlState.from_code (s : String) : SqlState :=
  SqlState.mk s

/-- Rust `str::parse::<u32>()`: optional leading `+`, then one or more
ASCII digits, value below `2^32`; anything else is a parse error. -/
def parseU32 (s : String) : Option Nat :=
  let cs := s.data
  let ds := if cs.head? = some '+' then cs.tail else cs
  if ds = [] then none
  else if ds.all Char.isDigit then
    let n := ds.foldl (fun acc c => acc * 10 + (c.toNat - 48)) 0
    if n < 4294967296 then some n else none
  else none

/-- Position of an error in a query (`enum ErrorPosition`). -/
inductive ErrorPosition where
  | Original (position : Nat)
  | Internal (position : Nat) (query : String)
deriving DecidableEq

/-- A Postgres error or notice (`struct DbError`). -/
structure DbError where
  severity : String
  parsed_severity : Option Severity
  code : SqlState
  message : String
  detail : Option String
  hint : Option String
  position : Option ErrorPosition
  where_ : Option String
  schema : Option String
  table : Option String
  column : Option String
  datatype : Option String
  constraint : Option String
  file : Option String
  line : Option Nat
  routine : Option String
deriving DecidableEq

/-- The mutable locals of `DbError::parse` before the final record is
assembled: one optional slot per recognized field code. -/
structure PState where
  severity : Option String
  parsed_severity : Option Severity
  code : Option SqlState
  message : Option String
  detail : Option String
  hint : Option String
  normal_position : Option Nat
  internal_position : Option Nat
  internal_query : Option String
  where_ : Option String
  schema : Option String
  table : Option String
  column : Option String
  datatype : Option String
  constraint : Option String
  file : Option String
  line : Option Nat
  routine : Option String
deriving DecidableEq

/-- All slots start out empty. -/
def initState : PState :=
  { severity := none, parsed_severity := none, code := none, message := none,
    detail := none, hint := none, normal_position := none,
    internal_position := none, internal_query := none, where_ := none,
    schema := none, table := none, column := none, datatype := none,
    constraint := none, file := none, line := none, routine := none }

/-- One iteration of the `while let Some(field) = fields.next()?` loop of
`DbError::parse`: dispatch on the field code, overwrite the matching
slot, validate `P`/`p`/`L` as integers and `V` against `Severity`,
returning the loop's early error (`?`) as `Except.error`.  Unrecognized
codes fall through to the final no-op arm. -/
def step (st : PState) (f : Field) : Except String PState :=
  if f.type_ = 'S' then .ok { st with severity := some f.value }
  else if f.type_ = 'C' then .ok { st with code := some (SqlState.from_code f.value) }
  else if f.type_ = 'M' then .ok { st with message := some f.value }
  else if f.type_ = 'D' then .ok { st with detail := some f.value }
  else if f.type_ = 'H' then .ok { st with hint := some f.value }
  else if f.type_ = 'P' then
    match parseU32 f.value with
    | some n => .ok { st with normal_position := some n }
    | none => .error "`P` field did not contain an integer"
  else if f.type_ = 'p' then
    match parseU32 f.value with
    | some n => .ok { st with internal_position := some n }
    | none => .error "`p` field did not contain an integer"
  else if f.type_ = 'q' then .ok { st with internal_query := some f.value }
  else if f.type_ = 'W' then .ok { st with where_ := some f.value }
  else if f.type_ = 's' then .ok { st with schema := some f.value }
  else if f.type_ = 't' then .ok { st with table := some f.value }
  else if f.type_ = 'c' then .ok { st with column := some f.value }
  else if f.type_ = 'd' then .ok { st with datatype := some f.value }
  else if f.type_ = 'n' then .ok { st with constraint := some f.value }
  else if f.type_ = 'F' then .ok { st with file := some f.value }
  else if f.type_ = 'L' then
    match parseU32 f.value with
    | some n => .ok { st with line := some n }
    | none => .error "`L` field did not contain an integer"
  else if f.type_ = 'R' then .ok { st with routine := some f.value }
  else if f.type_ = 'V' then
    match Severity.from_str f.value with
    | some s => .ok { st with parsed_severity := some s }
    | none => .error "`V` field contained an invalid value"
  else .ok st

/-- The whole field loop: a single forward pass, aborting on the first
field fault. -/
def parsePass : List Field → PState → Except String PState
  | [], st => .ok st
  | f :: fs, st =>
    match step st f with
    | .ok st1 => parsePass fs st1
    | .error e => .error e

/-- Assembly of the final `DbError` record after the loop, in Rust
struct-literal evaluation order: the `S`, `C`, `M` mandatory checks come
first (in that order), then position resolution (`P` authoritative,
else `p` requiring `q`). -/
def build (st : PState) : Except String DbError :=
  match st.severity with
  | none => .error "`S` field missing"
  | some severity =>
    match st.code with
    | none => .error "`C` field missing"
    | some code =>
      match st.message with
      | none => .error "`M` field missing"
      | some message =>
        match st.normal_position with
        | some p =>
          .ok { severity := severity, parsed_severity := st.parsed_severity,
                code := code, message := message, detail := st.detail,
                hint := st.hint, position := some (ErrorPosition.Original p),
                where_ := st.where_, schema := st.schema, table := st.table,
                column := st.column, datatype := st.datatype,
                constraint := st.constraint, file := st.file, line := st.line,
                routine := st.routine }
        | none =>
          match st.internal_position with
          | some p =>
            match st.internal_query with
            | some q =>
              .ok { severity := severity, parsed_severity := st.parsed_severity,
                    code := code, message := message, detail := st.detail,
                    hint := st.hint,
                    position := some (ErrorPosition.Internal p q),
                    where_ := st.where_, schema := st.schema, table := st.table,
                    column := st.column, datatype := st.datatype,
                    constraint := st.constraint, file := st.file,
                    line := st.line, routine := st.routine }
            | none => .error "`q` field missing but `p` field present"
          | none =>
            .ok { severity := severity, parsed_severity := st.parsed_severity,
                  code := code, message := message, detail := st.detail,
                  hint := st.hint, position := none,
                  where_ := st.where_, schema := st.schema, table := st.table,
                  column := st.column, datatype := st.datatype,
                  constraint := st.constraint, file := st.file,
                  line := st.line, routine := st.routine }

/-- Source `DbError::parse`: run the field loop from empty slots, then build. -/
def DbError.parse (fs : List Field) : Except String DbError :=
  match parsePass fs initState with
  | .ok st => build st
  | .error e => .error e

/-- Overriding choice on optional slots: a `some` on the left wins. -/
def ovr {α : Type} (o d : Option α) : Option α :=
  match o with
  | some v => some v
  | none => d

/-- The value of the last field with code `c`, if any. -/
def lastVal (c : Char) : List Field → Option String
  | [] => none
  | f :: fs => ovr (lastVal c fs) (if f.type_ = c then some f.value else none)

/-- Does some field with code `c` occur in the sequence? -/
def hasCode (c : Char) (fs : List Field) : Bool :=
  fs.any (fun f => f.type_ == c)

/-- The 18 field codes `DbError::parse` recognizes. -/
def recognizedCode (c : Char) : Bool :=
  c == 'S' || c == 'C' || c == 'M' || c == 'D' || c == 'H' || c == 'P' ||
  c == 'p' || c == 'q' || c == 'W' || c == 's' || c == 't' || c == 'c' ||
  c == 'd' || c == 'n' || c == 'F' || c == 'L' || c == 'R' || c == 'V'

/-- How a validated slot (`P`, `p`, `L`, `V`) evolves across a stretch of
fields: if the stretch contains an occurrence, its last occurrence's
value validates and fills the slot; otherwise the slot is untouched. -/
def TrackParsed {β : Type} (last : Option String) (pf : String → Option β)
    (old new : Option β) : Prop :=
  match last with
  | some v => ∃ b, pf v = some b ∧ new = some b
  | none => new = old

/-- Full characterization of how the parser state evolves across a
stretch of fields: every plain string slot holds the last occurrence of
its code (or its old value), and every validated slot tracks its last
occurrence through its validator. -/
def Tracks (st st' : PState) (fs : List Field) : Prop :=
  st'.severity = ovr (lastVal 'S' fs) st.severity ∧
  TrackParsed (lastVal 'V' fs) Severity.from_str st.parsed_severity st'.parsed_severity ∧
  st'.code = ovr ((lastVal 'C' fs).map SqlState.from_code) st.code ∧
  st'.message = ovr (lastVal 'M' fs) st.message ∧
  st'.detail = ovr (lastVal 'D' fs) st.detail ∧
  st'.hint = ovr (lastVal 'H' fs) st.hint ∧
  TrackParsed (lastVal 'P' fs) parseU32 st.normal_position st'.normal_position ∧
  TrackParsed (lastVal 'p' fs) parseU32 st.internal_position st'.internal_position ∧
  st'.internal_query = ovr (lastVal 'q' fs) st.internal_query ∧
  st'.where_ = ovr (lastVal 'W' fs) st.where_ ∧
  st'.schema = ovr (lastVal 's' fs) st.schema ∧
  st'.table = ovr (lastVal 't' fs) st.table ∧
  st'.column = ovr (lastVal 'c' fs) st.column ∧
  st'.datatype = ovr (lastVal 'd' fs) st.datatype ∧
  st'.constraint = ovr (lastVal 'n' fs) st.constraint ∧
  st'.file = ovr (lastVal 'F' fs) st.file ∧
  TrackParsed (lastVal 'L' fs) parseU32 st.line st'.line ∧
  st'.routine = ovr (lastVal 'R' fs) st.routine

/-- Row-count expectation categories (`enum RowCountCategory`). -/
inductive RowCountCategory where
  | One
  | ZeroOrOne
  | MoreThanOne
  | Zero
deriving DecidableEq

/-- The error taxonomy of the client (`enum Kind`).  Each boxed
`dyn Error` cause is modelled by its rendered message, which is all
`Display` consumes of it. -/
inductive Kind where
  | Io (err : String)
  | UnexpectedMessage
  | Tls (err : String)
  | ToSql (idx : Nat) (err : String)
  | FromSql (idx : Nat) (err : String)
  | Column (column : String)
  | Parameters (real expected : Nat)
  | Closed
  | Db (err : DbError)
  | Parse (err : String)
  | Encode (err : String)
  | Authentication (err : String)
  | ConfigParse (err : String)
  | Config (err : String)
  | Connect (err : String)
  | RowCount (expected got : RowCountCategory)
  | Timeout
deriving DecidableEq

/-- Source `impl fmt::Display for RowCountCategory`. -/
def RowCountCategory.display : RowCountCategory → String
  | RowCountCategory.One => "one"
  | RowCountCategory.ZeroOrOne => "zero or one"
  | RowCountCategory.MoreThanOne => "more than one"
  | RowCountCategory.Zero => "zero"

/-- Source `impl fmt::Display for DbError`: severity and message, then optional
`DETAIL:` and `HINT:` lines. -/
def DbError.display (e : DbError) : String :=
  e.severity ++ ": " ++ e.message ++
    (match e.detail with
     | some d => "\nDETAIL: " ++ d
     | none => "") ++
    (match e.hint with
     | some h => "\nHINT: " ++ h
     | none => "")

/-- Source `impl fmt::Display for Kind`: one stable message line per variant. -/
def Kind.display : Kind → String
  | Kind.Io err => "error communicating with the server: " ++ err
  | Kind.UnexpectedMessage => "unexpected message from server"
  | Kind.Tls err => "error performing TLS handshake: " ++ err
  | Kind.ToSql idx err => "error serializing parameter " ++ toString idx ++ ": " ++ err
  | Kind.FromSql idx err => "error deserializing column " ++ toString idx ++ ": " ++ err
  | Kind.Column column => "invalid column `" ++ column ++ "`"
  | Kind.Parameters real expected =>
    "expected " ++ toString expected ++ " parameters but got " ++ toString real
  | Kind.Closed => "connection closed"
  | Kind.Db err => "db error: " ++ err.display
  | Kind.Parse err => "error parsing response from server: " ++ err
  | Kind.Encode err => "error encoding message to server: " ++ err
  | Kind.Authentication err => "authentication error: " ++ err
  | Kind.ConfigParse err => "invalid connection string: " ++ err
  | Kind.Config err => "invalid configuration: " ++ err
  | Kind.Connect err => "error connecting to server: " ++ err
  | Kind.RowCount expected got =>
    "query returned an unexpected number of rows, expected " ++
      expected.display ++ ", got " ++ got.display
  | Kind.Timeout => "timeout waiting for server"

/-- The opaque error wrapper (`struct Error(Box<ErrorInner>)`).  The
optional tracing span capture is feature-gated diagnostic state with no
effect on `Kind`; it is not modelled. -/
structure Error where
  kind : Kind
deriving DecidableEq

/-- Source `impl fmt::Display for Error`: renders the wrapped `Kind`. -/
def Error.display (e : Error) : String :=
  e.kind.display

/-- Source `Error::as_db_error`: the nested `DbError` when server-reported. -/
def Error.as_db_error (e : Error) : Option DbError :=
  match e.kind with
  | Kind.Db err => some err
  | _ => none

/-- Source `Error::is_closed`. -/
def Error.is_closed (e : Error) : Bool :=
  match e.kind with
  | Kind.Closed => true
  | _ => false

/-- Source `Error::code`: SQLSTATE via the nested `DbError`. -/
def Error.code (e : Error) : Option SqlState :=
  (e.as_db_error).map DbError.code

mutual

/-- Immutable wire-type descriptor (`postgres_types::Type`): a name and
a `Kind` (spec section 3). -/
inductive PgType : Type where
  | mk (name : String) (kind : PgKind)

/-- The kind of a wire type (`postgres_types::Kind`). -/
inductive PgKind : Type where
  | Simple
  | Array (elem : PgType)
  | Range (elem : PgType)
  | Domain (base : PgType)
  | Composite (fields : List PgType)
  | Enum (variants : List String)

end

/-- Projection `Type::kind`. -/
def PgType.kind : PgType → PgKind
  | PgType.mk _ k => k

/-- Whether an encoded value is logically SQL NULL
(`postgres_types::IsNull`). -/
inductive IsNull where
  | Yes
  | No
deriving DecidableEq

/-- The element Codec Capability (spec section 4.1): the
`accepts`/`decode`/`encode` triad plus the null-decode path, for one
logical value type.  Wire bytes are `List Nat`. -/
structure ElemCodec (α : Type) where
  accepts : PgType → Bool
  from_sql : PgType → List Nat → Except String α
  from_sql_null : PgType → Except String α
  to_sql : α → PgType → Except String (IsNull × List Nat)

/-- Inclusive or exclusive bound tag (`postgres_range::BoundType`). -/
inductive BoundType where
  | Inclusive
  | Exclusive
deriving DecidableEq

/-- One side of a range (`postgres_range::RangeBound`): a value tagged
inclusive or exclusive.  Modelled from the spec: the `postgres-range`
crate root (defining `Range`, `RangeBound`, `BoundType`) is not under
`src/`; spec section 3 gives `Bound<T> = {value, kind}`. -/
structure RangeBound (α : Type) where
  value : α
  type_ : BoundType
deriving DecidableEq

/-- A range value (`postgres_range::Range`).  Modelled from the spec:
`Empty`, or a pair of optional bounds where `none` means unbounded
(spec section 3). -/
inductive Range (α : Type) where
  | Empty
  | Nonempty (lower upper : Option (RangeBound α))
deriving DecidableEq

/-- One decoded bound frame of the range wire format
(`postgres_protocol::types::RangeBound` instantiated at
`Option<&[u8]>`): unbounded, or tagged with an optional payload. -/
inductive ProtoRangeBound where
  | Inclusive (payload : Option (List Nat))
  | Exclusive (payload : Option (List Nat))
  | Unbounded
deriving DecidableEq

/-- A decoded range frame (`postgres_protocol::types::Range`). -/
inductive ProtoRange where
  | Empty
  | Nonempty (lower upper : ProtoRangeBound)
deriving DecidableEq

/-- Modelled from the spec: `postgres_protocol::types::empty_range_to_sql`
is not under `src/`; spec section 6 requires one leading tag
distinguishing empty from nonempty.  Tag byte `1` marks the empty
range. -/
def emptyRangeToSql : List Nat :=
  [1]

/-- Modelled from the spec: the byte framing of one bound
(`postgres_protocol::types::range_to_sql` internals are not under
`src/`).  Spec section 6: each frame is one of
`Unbounded | Inclusive(optional payload) | Exclusive(optional payload)`;
a null flag means the payload is absent.  A tag byte identifies the five
shapes, a present payload is length-prefixed. -/
def frameBytes : ProtoRangeBound → List Nat
  | ProtoRangeBound.Unbounded => [0]
  | ProtoRangeBound.Inclusive none => [2]
  | ProtoRangeBound.Inclusive (some p) => 3 :: p.length :: p
  | ProtoRangeBound.Exclusive none => [4]
  | ProtoRangeBound.Exclusive (some p) => 5 :: p.length :: p

/-- Modelled from the spec: `postgres_protocol::types::range_to_sql`
framing — nonempty tag byte `0`, then the lower frame, then the upper
frame (spec section 6). -/
def rangeToSql (lower upper : ProtoRangeBound) : List Nat :=
  0 :: (frameBytes lower ++ frameBytes upper)

/-- Modelled from the spec: parsing one bound frame
(`postgres_protocol::types::range_from_sql` internals are not under
`src/`), inverse of `frameBytes`; returns the frame and the remaining
bytes. -/
def parseFrame : List Nat → Except String (ProtoRangeBound × List Nat)
  | 0 :: rest => .ok (ProtoRangeBound.Unbounded, rest)
  | 2 :: rest => .ok (ProtoRangeBound.Inclusive none, rest)
  | 3 :: n :: rest =>
    if n ≤ rest.length then
      .ok (ProtoRangeBound.Inclusive (some (rest.take n)), rest.drop n)
    else .error "invalid message length: range bound"
  | 4 :: rest => .ok (ProtoRangeBound.Exclusive none, rest)
  | 5 :: n :: rest =>
    if n ≤ rest.length then
      .ok (ProtoRangeBound.Exclusive (some (rest.take n)), rest.drop n)
    else .error "invalid message length: range bound"
  | _ => .error "invalid range bound tag"

/-- Modelled from the spec: `postgres_protocol::types::range_from_sql` —
read the leading flag; empty, or a lower and an upper bound frame
consuming the whole buffer (spec sections 4.2 and 6). -/
def range_from_sql : List Nat → Except String ProtoRange
  | 1 :: rest =>
    if rest = [] then .ok ProtoRange.Empty
    else .error "invalid message length: range"
  | 0 :: rest =>
    match parseFrame rest with
    | .error e => .error e
    | .ok (lower, rest1) =>
      match parseFrame rest1 with
      | .error e => .error e
      | .ok (upper, rest2) =>
        if rest2 = [] then .ok (ProtoRange.Nonempty lower upper)
        else .error "invalid message length: range"
  | _ => .error "invalid range flags"

/-- A decode or encode outcome of the range codec, separating the
programming-error-class `panic!` from reportable faults. -/
inductive RangeFail where
  | panicked (msg : String)
  | fault (msg : String)
deriving DecidableEq

/-- Source `bound_from_sql` (postgres-range `impls.rs`): decode one bound frame
by delegating a present payload to the element decode and an explicit
null payload to the element null-decode; `Unbounded` yields `none`. -/
def bound_from_sql {α : Type} (elem : ElemCodec α) (ty : PgType) :
    ProtoRangeBound → Except String (Option (RangeBound α))
  | ProtoRangeBound.Exclusive payload =>
    match (match payload with
           | some bs => elem.from_sql ty bs
           | none => elem.from_sql_null ty) with
    | .error e => .error e
    | .ok value => .ok (some (RangeBound.mk value BoundType.Exclusive))
  | ProtoRangeBound.Inclusive payload =>
    match (match payload with
           | some bs => elem.from_sql ty bs
           | none => elem.from_sql_null ty) with
    | .error e => .error e
    | .ok value => .ok (some (RangeBound.mk value BoundType.Inclusive))
  | ProtoRangeBound.Unbounded => .ok none

/-- Source `Range::from_sql`: require `Kind::Range(elementType)` (else the
source panics), parse the wire frames, then decode each bound. -/
def Range.from_sql {α : Type} (elem : ElemCodec α) (ty : PgType)
    (raw : List Nat) : Except RangeFail (Range α) :=
  match ty.kind with
  | PgKind.Range ety =>
    match range_from_sql raw with
    | .error e => .error (RangeFail.fault e)
    | .ok ProtoRange.Empty => .ok Range.Empty
    | .ok (ProtoRange.Nonempty l u) =>
      match bound_from_sql elem ety l with
      | .error e => .error (RangeFail.fault e)
      | .ok lower =>
        match bound_from_sql elem ety u with
        | .error e => .error (RangeFail.fault e)
        | .ok upper => .ok (Range.Nonempty lower upper)
  | _ => .error (RangeFail.panicked "unexpected type")

/-- Source `FromSql::accepts` / `ToSql::accepts` for `Range<T>` (both arms have
the same body): the descriptor's kind is `Range(inner)` and the element
capability accepts `inner`. -/
def Range.accepts {α : Type} (elem : ElemCodec α) (ty : PgType) : Bool :=
  match ty.kind with
  | PgKind.Range inner => elem.accepts inner
  | _ => false

/-- Source `bound_to_sql` (postgres-range `impls.rs`) combined with the
spec-modelled framing capture: encode the bound's value with the element
capability, observe its null flag, and emit the frame tagged per the
bound's own inclusivity carrying that flag (a null flag suppresses the
payload, spec sections 4.2 and 6); an absent bound is `Unbounded`. -/
def bound_to_sql {α : Type} (elem : ElemCodec α) (ty : PgType) :
    Option (RangeBound α) → Except String ProtoRangeBound
  | some b =>
    match elem.to_sql b.value ty with
    | .error e => .error e
    | .ok (isn, bs) =>
      let payload := match isn with
        | IsNull.No => some bs
        | IsNull.Yes => none
      match b.type_ with
      | BoundType.Exclusive => .ok (ProtoRangeBound.Exclusive payload)
      | BoundType.Inclusive => .ok (ProtoRangeBound.Inclusive payload)
  | none => .ok ProtoRangeBound.Unbounded

/-- Source `Range::to_sql`: require `Kind::Range(elementType)` (else the source
panics); an empty range emits the empty marker, a nonempty range emits
the two bound frames; on success the range self-reports `IsNull::No`. -/
def Range.to_sql {α : Type} (elem : ElemCodec α) (ty : PgType)
    (r : Range α) : Except RangeFail (IsNull × List Nat) :=
  match ty.kind with
  | PgKind.Range ety =>
    match r with
    | Range.Empty => .ok (IsNull.No, emptyRangeToSql)
    | Range.Nonempty lower upper =>
      match bound_to_sql elem ety lower with
      | .error e => .error (RangeFail.fault e)
      | .ok lf =>
        match bound_to_sql elem ety upper with
        | .error e => .error (RangeFail.fault e)
        | .ok uf => .ok (IsNull.No, rangeToSql lf uf)
  | _ => .error (RangeFail.panicked "unexpected type")

/-- Well-behaved element codec (the round-trip premise of the spec): a
value that encoded non-null decodes back from its bytes, and a value
that self-reported null decodes back through the null path. -/
def ElemRoundTrip {α : Type} (elem : ElemCodec α) (ty : PgType) : Prop :=
  ∀ x isn bs, elem.to_sql x ty = .ok (isn, bs) →
    (isn = IsNull.No → elem.from_sql ty bs = .ok x) ∧
    (isn = IsNull.Yes → elem.from_sql_null ty = .ok x)

/-- One named cell of a decoded row (spec section 4.5); `none` raw bytes
are a SQL NULL cell. -/
structure RowCell where
  name : String
  raw : Option (List Nat)

/-- A decoded row: an ordered sequence of named cells. -/
structure Row where
  cells : List RowCell

/-- A per-target-type decoder over a nullable cell, the shape `FromSql`
presents to the row layer. -/
def Decoder (α : Type) : Type :=
  Option (List Nat) → Except String α

/-- Modelled from the spec: `Row::try_get` by fixed position (the `Row`
implementation is not under `src/`).  Spec section 4.5: an unresolved
column surfaces as `Kind::Column`, a per-column decode fault as
`Kind::FromSql` carrying that column's index. -/
def tryGet {α : Type} (dec : Decoder α) (row : Row) (idx : Nat) :
    Except Error α :=
  match row.cells.get? idx with
  | none => .error (Error.mk (Kind.Column (toString idx)))
  | some cell =>
    match dec cell.raw with
    | .ok v => .ok v
    | .error e => .error (Error.mk (Kind.FromSql idx e))

/-- Rust's `?` operator on a fallible expression: propagate the error,
else continue with the value. -/
def exc {β γ : Type} (a : Except Error β) (k : β → Except Error γ) :
    Except Error γ :=
  match a with
  | .error e => .error e
  | .ok v => k v

/-- Source `impl FromRow for (T0,)`: element 0 from column 0. -/
def fromRow1 {α0 : Type} (d0 : Decoder α0) (row : Row) :
    Except Error α0 :=
  exc (tryGet d0 row 0) (fun v0 => .ok v0)

/-- Source `impl FromRow for (T0, T1)`: element i from column i. -/
def fromRow2 {α0 α1 : Type} (d0 : Decoder α0) (d1 : Decoder α1)
    (row : Row) : Except Error (α0 × α1) :=
  exc (tryGet d0 row 0) (fun v0 =>
    exc (tryGet d1 row 1) (fun v1 => .ok (v0, v1)))

/-- Source `impl FromRow for (T0, T1, T2)`. -/
def fromRow3 {α0 α1 α2 : Type} (d0 : Decoder α0) (d1 : Decoder α1)
    (d2 : Decoder α2) (row : Row) : Except Error (α0 × α1 × α2) :=
  exc (tryGet d0 row 0) (fun v0 =>
    exc (tryGet d1 row 1) (fun v1 =>
      exc (tryGet d2 row 2) (fun v2 => .ok (v0, v1, v2))))

/-- Source `impl FromRow for (T0, ..., T3)`. -/
def fromRow4 {α0 α1 α2 α3 : Type} (d0 : Decoder α0) (d1 : Decoder α1)
    (d2 : Decoder α2) (d3 : Decoder α3) (row : Row) :
    Except Error (α0 × α1 × α2 × α3) :=
  exc (tryGet d0 row 0) (fun v0 =>
    exc (tryGet d1 row 1) (fun v1 =>
      exc (tryGet d2 row 2) (fun v2 =>
        exc (tryGet d3 row 3) (fun v3 => .ok (v0, v1, v2, v3)))))

/-- Source `impl FromRow for (T0, ..., T4)`. -/
def fromRow5 {α0 α1 α2 α3 α4 : Type} (d0 : Decoder α0) (d1 : Decoder α1)
    (d2 : Decoder α2) (d3 : Decoder α3) (d4 : Decoder α4) (row : Row) :
    Except Error (α0 × α1 × α2 × α3 × α4) :=
  exc (tryGet d0 row 0) (fun v0 =>
    exc (tryGet d1 row 1) (fun v1 =>
      exc (tryGet d2 row 2) (fun v2 =>
        exc (tryGet d3 row 3) (fun v3 =>
          exc (tryGet d4 row 4) (fun v4 => .ok (v0, v1, v2, v3, v4))))))

/-- Source `impl FromRow for (T0, ..., T5)`. -/
def fromRow6 {α0 α1 α2 α3 α4 α5 : Type} (d0 : Decoder α0)
    (d1 : Decoder α1) (d2 : Decoder α2) (d3 : Decoder α3)
    (d4 : Decoder α4) (d5 : Decoder α5) (row : Row) :
    Except Error (α0 × α1 × α2 × α3 × α4 × α5) :=
  exc (tryGet d0 row 0) (fun v0 =>
    exc (tryGet d1 row 1) (fun v1 =>
      exc (tryGet d2 row 2) (fun v2 =>
        exc (tryGet d3 row 3) (fun v3 =>
          exc (tryGet d4 row 4) (fun v4 =>
            exc (tryGet d5 row 5) (fun v5 =>
              .ok (v0, v1, v2, v3, v4, v5)))))))

/-- Source `impl FromRow for (T0, ..., T6)`. -/
def fromRow7 {α0 α1 α2 α3 α4 α5 α6 : Type} (d0 : Decoder α0)
    (d1 : Decoder α1) (d2 : Decoder α2) (d3 : Decoder α3)
    (d4 : Decoder α4) (d5 : Decoder α5) (d6 : Decoder α6) (row : Row) :
    Except Error (α0 × α1 × α2 × α3 × α4 × α5 × α6) :=
  exc (tryGet d0 row 0) (fun v0 =>
    exc (tryGet d1 row 1) (fun v1 =>
      exc (tryGet d2 row 2) (fun v2 =>
        exc (tryGet d3 row 3) (fun v3 =>
          exc (tryGet d4 row 4) (fun v4 =>
            exc (tryGet d5 row 5) (fun v5 =>
              exc (tryGet d6 row 6) (fun v6 =>
                .ok (v0, v1, v2, v3, v4, v5, v6))))))))

/-- Source `impl FromRow for (T0, ..., T7)`. -/
def fromRow8 {α0 α1 α2 α3 α4 α5 α6 α7 : Type} (d0 : Decoder α0)
    (d1 : Decoder α1) (d2 : Decoder α2) (d3 : Decoder α3)
    (d4 : Decoder α4) (d5 : Decoder α5) (d6 : Decoder α6)
    (d7 : Decoder α7) (row : Row) :
    Except Error (α0 × α1 × α2 × α3 × α4 × α5 × α6 × α7) :=
  exc (tryGet d0 row 0) (fun v0 =>
    exc (tryGet d1 row 1) (fun v1 =>
      exc (tryGet d2 row 2) (fun v2 =>
        exc (tryGet d3 row 3) (fun v3 =>
          exc (tryGet d4 row 4) (fun v4 =>
            exc (tryGet d5 row 5) (fun v5 =>
              exc (tryGet d6 row 6) (fun v6 =>
                exc (tryGet d7 row 7) (fun v7 =>
                  .ok (v0, v1, v2, v3, v4, v5, v6, v7)))))))))

/-- Source `impl FromRow for (T0, ..., T8)`. -/
def fromRow9 {α0 α1 α2 α3 α4 α5 α6 α7 α8 : Type} (d0 : Decoder α0)
    (d1 : Decoder α1) (d2 : Decoder α2) (d3 : Decoder α3)
    (d4 : Decoder α4) (d5 : Decoder α5) (d6 : Decoder α6)
    (d7 : Decoder α7) (d8 : Decoder α8) (row : Row) :
    Except Error (α0 × α1 × α2 × α3 × α4 × α5 × α6 × α7 × α8) :=
  exc (tryGet d0 row 0) (fun v0 =>
    exc (tryGet d1 row 1) (fun v1 =>
      exc (tryGet d2 row 2) (fun v2 =>
        exc (tryGet d3 row 3) (fun v3 =>
          exc (tryGet d4 row 4) (fun v4 =>
            exc (tryGet d5 row 5) (fun v5 =>
              exc (tryGet d6 row 6) (fun v6 =>
                exc (tryGet d7 row 7) (fun v7 =>
                  exc (tryGet d8 row 8) (fun v8 =>
                    .ok (v0, v1, v2, v3, v4, v5, v6, v7, v8))))))))))

/-- Source `impl FromRow for (T0, ..., T9)`. -/
def fromRow10 {α0 α1 α2 α3 α4 α5 α6 α7 α8 α9 : Type} (d0 : Decoder α0)
    (d1 : Decoder α1) (d2 : Decoder α2) (d3 : Decoder α3)
    (d4 : Decoder α4) (d5 : Decoder α5) (d6 : Decoder α6)
    (d7 : Decoder α7) (d8 : Decoder α8) (d9 : Decoder α9) (row : Row) :
    Except Error (α0 × α1 × α2 × α3 × α4 × α5 × α6 × α7 × α8 × α9) :=
  exc (tryGet d0 row 0) (fun v0 =>
    exc (tryGet d1 row 1) (fun v1 =>
      exc (tryGet d2 row 2) (fun v2 =>
        exc (tryGet d3 row 3) (fun v3 =>
          exc (tryGet d4 row 4) (fun v4 =>
            exc (tryGet d5 row 5) (fun v5 =>
              exc (tryGet d6 row 6) (fun v6 =>
                exc (tryGet d7 row 7) (fun v7 =>
                  exc (tryGet d8 row 8) (fun v8 =>
                    exc (tryGet d9 row 9) (fun v9 =>
                      .ok (v0, v1, v2, v3, v4, v5, v6, v7, v8, v9)))))))))))


/-- A concrete error-field message exercising position resolution: both
internal (`p`/`q`) and original (`P`) position fields present. -/
def fsPos : List Field :=
  [Field.mk 'S' "ERROR", Field.mk 'C' "42601", Field.mk 'M' "syntax error",
   Field.mk 'p' "3", Field.mk 'q' "SELECT 1", Field.mk 'P' "7"]

/-- The record `DbError::parse` produces for `fsPos`. -/
def dbPos : DbError :=
  { severity := "ERROR", parsed_severity := none,
    code := SqlState.mk "42601", message := "syntax error", detail := none,
    hint := none, position := some (ErrorPosition.Original 7),
    where_ := none, schema := none, table := none, column := none,
    datatype := none, constraint := none, file := none, line := none,
    routine := none }

/-- A concrete message missing the mandatory `M` field. -/
def fsNoM : List Field :=
  [Field.mk 'S' "ERROR", Field.mk 'C' "42601"]

/-- The parser state after the full pass over `fsNoM`. -/
def stNoM : PState :=
  { severity := some "ERROR", parsed_severity := none,
    code := some (SqlState.mk "42601"), message := none, detail := none,
    hint := none, normal_position := none, internal_position := none,
    internal_query := none, where_ := none, schema := none, table := none,
    column := none, datatype := none, constraint := none, file := none,
    line := none, routine := none }

/-- A concrete message with a duplicated `S` and `M` field and an
unrecognized `Z` field. -/
def fsDup : List Field :=
  [Field.mk 'S' "FATAL", Field.mk 'Z' "ignored", Field.mk 'S' "ERROR",
   Field.mk 'C' "42601", Field.mk 'M' "first", Field.mk 'M' "second"]

/-- The record `DbError::parse` produces for `fsDup`: later occurrences
win, the `Z` field is ignored. -/
def dbDup : DbError :=
  { severity := "ERROR", parsed_severity := none,
    code := SqlState.mk "42601", message := "second", detail := none,
    hint := none, position := none, where_ := none, schema := none,
    table := none, column := none, datatype := none, constraint := none,
    file := none, line := none, routine := none }

/-- A concrete element codec for witnesses: a `Nat` encodes as the
single "byte" `[n]`, never null, and only `Simple`-kind descriptors are
accepted. -/
def elemNat : ElemCodec Nat :=
  { accepts := fun ty =>
      match ty.kind with
      | PgKind.Simple => true
      | _ => false,
    from_sql := fun _ bs =>
      match bs with
      | [n] => .ok n
      | _ => .error "invalid buffer size",
    from_sql_null := fun _ => .error "unexpected null",
    to_sql := fun n _ => .ok (IsNull.No, [n]) }

/-- A simple element type descriptor. -/
def tyInt : PgType :=
  PgType.mk "int4" PgKind.Simple

/-- A range type descriptor over `tyInt`. -/
def tyIntRange : PgType :=
  PgType.mk "int4range" (PgKind.Range tyInt)

/-- A non-range type descriptor. -/
def tyText : PgType :=
  PgType.mk "text" PgKind.Simple

/-- A concrete decoder for witnesses: a non-nullable `Nat` cell holding
one "byte". -/
def decNat : Decoder Nat := fun cell =>
  match cell with
  | some [n] => .ok n
  | some _ => .error "invalid buffer size"
  | none => .error "unexpected null"

/-- A concrete two-column row whose second cell is SQL NULL. -/
def rowBad : Row :=
  Row.mk [RowCell.mk "a" (some [1]), RowCell.mk "b" none]

theorem ovr_assoc {α : Type} (a b c : Option α) :
    ovr (ovr a b) c = ovr a (ovr b c) := by
  cases a <;> rfl

theorem ovr_none_right {α : Type} (a : Option α) : ovr a none = a := by
  cases a <;> rfl

theorem ovr_map {α β : Type} (g : α → β) (a b : Option α) :
    (ovr a b).map g = ovr (a.map g) (b.map g) := by
  cases a <;> rfl

theorem ovr_isSome {α : Type} (a b : Option α) :
    (ovr a b).isSome = (a.isSome || b.isSome) := by
  cases a <;> simp [ovr]

theorem ovr_chain {α : Type} {x y z : Option α} {o2 o1 : Option α}
    (h2 : z = ovr o2 y) (h1 : y = ovr o1 x) : z = ovr (ovr o2 o1) x := by
  subst h2; subst h1; exact (ovr_assoc o2 o1 x).symm

theorem trackParsed_comp {β : Type} {pf : String → Option β}
    {l2 l1 : Option String} {a b c : Option β}
    (h2 : TrackParsed l2 pf b c) (h1 : TrackParsed l1 pf a b) :
    TrackParsed (ovr l2 l1) pf a c := by
  cases l2 with
  | some v => exact h2
  | none =>
    cases l1 with
    | some v =>
      simp only [TrackParsed] at h2 h1 ⊢
      rw [h2]; exact h1
    | none =>
      simp only [TrackParsed, ovr] at h2 h1 ⊢
      rw [h2, h1]

theorem lastVal_append (c : Char) (fs gs : List Field) :
    lastVal c (fs ++ gs) = ovr (lastVal c gs) (lastVal c fs) := by
  induction fs with
  | nil => simp [lastVal, ovr_none_right]
  | cons f fs ih => simp [lastVal, ih, ovr_assoc]

theorem lastVal_isSome (c : Char) (fs : List Field) :
    (lastVal c fs).isSome = hasCode c fs := by
  induction fs with
  | nil => rfl
  | cons f fs ih =>
    simp only [lastVal, hasCode, List.any_cons, ovr_isSome, ih]
    by_cases h : f.type_ = c <;> simp [h, hasCode, Bool.or_comm]

theorem tracks_nil (st : PState) : Tracks st st [] := by
  simp [Tracks, TrackParsed, ovr, lastVal]

theorem tracks_step_S (st st' : PState) (f : Field) (h1 : f.type_ = 'S')
    (hstep : step st f = .ok st') : Tracks st st' [f] := by
  have he : st' = { st with severity := some f.value } := by
    simp [step, h1] at hstep; exact hstep.symm
  subst he
  refine ⟨?_, ?_, ?_, ?_, ?_, ?_, ?_, ?_, ?_, ?_, ?_, ?_, ?_, ?_, ?_, ?_,
    ?_, ?_⟩ <;> simp [TrackParsed, lastVal, ovr, h1]

theorem tracks_step_C (st st' : PState) (f : Field) (h1 : f.type_ = 'C')
    (hstep : step st f = .ok st') : Tracks st st' [f] := by
  have he : st' = { st with code := some (SqlState.from_code f.value) } := by
    simp [step, h1] at hstep; exact hstep.symm
  subst he
  refine ⟨?_, ?_, ?_, ?_, ?_, ?_, ?_, ?_, ?_, ?_, ?_, ?_, ?_, ?_, ?_, ?_,
    ?_, ?_⟩ <;> simp [TrackParsed, lastVal, ovr, h1]

theorem tracks_step_M (st st' : PState) (f : Field) (h1 : f.type_ = 'M')
    (hstep : step st f = .ok st') : Tracks st st' [f] := by
  have he : st' = { st with message := some f.value } := by
    simp [step, h1] at hstep; exact hstep.symm
  subst he
  refine ⟨?_, ?_, ?_, ?_, ?_, ?_, ?_, ?_, ?_, ?_, ?_, ?_, ?_, ?_, ?_, ?_,
    ?_, ?_⟩ <;> simp [TrackParsed, lastVal, ovr, h1]

theorem tracks_step_D (st st' : PState) (f : Field) (h1 : f.type_ = 'D')
    (hstep : step st f = .ok st') : Tracks st st' [f] := by
  have he : st' = { st with detail := some f.value } := by
    simp [step, h1] at hstep; exact hstep.symm
  subst he
  refine ⟨?_, ?_, ?_, ?_, ?_, ?_, ?_, ?_, ?_, ?_, ?_, ?_, ?_, ?_, ?_, ?_,
    ?_, ?_⟩ <;> simp [TrackParsed, lastVal, ovr, h1]

theorem tracks_step_H (st st' : PState) (f : Field) (h1 : f.type_ = 'H')
    (hstep : step st f = .ok st') : Tracks st st' [f] := by
  have he : st' = { st with hint := some f.value } := by
    simp [step, h1] at hstep; exact hstep.symm
  subst he
  refine ⟨?_, ?_, ?_, ?_, ?_, ?_, ?_, ?_, ?_, ?_, ?_, ?_, ?_, ?_, ?_, ?_,
    ?_, ?_⟩ <;> simp [TrackParsed, lastVal, ovr, h1]

theorem tracks_step_P (st st' : PState) (f : Field) (h1 : f.type_ = 'P')
    (hstep : step st f = .ok st') : Tracks st st' [f] := by
  cases hp : parseU32 f.value with
  | none => simp [step, h1, hp] at hstep
  | some n =>
    have he : st' = { st with normal_position := some n } := by
      simp [step, h1, hp] at hstep; exact hstep.symm
    subst he
    refine ⟨?_, ?_, ?_, ?_, ?_, ?_, ?_, ?_, ?_, ?_, ?_, ?_, ?_, ?_, ?_, ?_,
      ?_, ?_⟩ <;> simp [TrackParsed, lastVal, ovr, h1, hp]

theorem tracks_step_p (st st' : PState) (f : Field) (h1 : f.type_ = 'p')
    (hstep : step st f = .ok st') : Tracks st st' [f] := by
  cases hp : parseU32 f.value with
  | none => simp [step, h1, hp] at hstep
  | some n =>
    have he : st' = { st with internal_position := some n } := by
      simp [step, h1, hp] at hstep; exact hstep.symm
    subst he
    refine ⟨?_, ?_, ?_, ?_, ?_, ?_, ?_, ?_, ?_, ?_, ?_, ?_, ?_, ?_, ?_, ?_,
      ?_, ?_⟩ <;> simp [TrackParsed, lastVal, ovr, h1, hp]

theorem tracks_step_q (st st' : PState) (f : Field) (h1 : f.type_ = 'q')
    (hstep : step st f = .ok st') : Tracks st st' [f] := by
  have he : st' = { st with internal_query := some f.value } := by
    simp [step, h1] at hstep; exact hstep.symm
  subst he
  refine ⟨?_, ?_, ?_, ?_, ?_, ?_, ?_, ?_, ?_, ?_, ?_, ?_, ?_, ?_, ?_, ?_,
    ?_, ?_⟩ <;> simp [TrackParsed, lastVal, ovr, h1]

theorem tracks_step_W (st st' : PState) (f : Field) (h1 : f.type_ = 'W')
    (hstep : step st f = .ok st') : Tracks st st' [f] := by
  have he : st' = { st with where_ := some f.value } := by
    simp [step, h1] at hstep; exact hstep.symm
  subst he
  refine ⟨?_, ?_, ?_, ?_, ?_, ?_, ?_, ?_, ?_, ?_, ?_, ?_, ?_, ?_, ?_, ?_,
    ?_, ?_⟩ <;> simp [TrackParsed, lastVal, ovr, h1]

theorem tracks_step_s (st st' : PState) (f : Field) (h1 : f.type_ = 's')
    (hstep : step st f = .ok st') : Tracks st st' [f] := by
  have he : st' = { st with schema := some f.value } := by
    simp [step, h1] at hstep; exact hstep.symm
  subst he
  refine ⟨?_, ?_, ?_, ?_, ?_, ?_, ?_, ?_, ?_, ?_, ?_, ?_, ?_, ?_, ?_, ?_,
    ?_, ?_⟩ <;> simp [TrackParsed, lastVal, ovr, h1]

theorem tracks_step_t (st st' : PState) (f : Field) (h1 : f.type_ = 't')
    (hstep : step st f = .ok st') : Tracks st st' [f] := by
  have he : st' = { st with table := some f.value } := by
    simp [step, h1] at hstep; exact hstep.symm
  subst he
  refine ⟨?_, ?_, ?_, ?_, ?_, ?_, ?_, ?_, ?_, ?_, ?_, ?_, ?_, ?_, ?_, ?_,
    ?_, ?_⟩ <;> simp [TrackParsed, lastVal, ovr, h1]

theorem tracks_step_c (st st' : PState) (f : Field) (h1 : f.type_ = 'c')
    (hstep : step st f = .ok st') : Tracks st st' [f] := by
  have he : st' = { st with column := some f.value } := by
    simp [step, h1] at hstep; exact hstep.symm
  subst he
  refine ⟨?_, ?_, ?_, ?_, ?_, ?_, ?_, ?_, ?_, ?_, ?_, ?_, ?_, ?_, ?_, ?_,
    ?_, ?_⟩ <;> simp [TrackParsed, lastVal, ovr, h1]

theorem tracks_step_d (st st' : PState) (f : Field) (h1 : f.type_ = 'd')
    (hstep : step st f = .ok st') : Tracks st st' [f] := by
  have he : st' = { st with datatype := some f.value } := by
    simp [step, h1] at hstep; exact hstep.symm
  subst he
  refine ⟨?_, ?_, ?_, ?_, ?_, ?_, ?_, ?_, ?_, ?_, ?_, ?_, ?_, ?_, ?_, ?_,
    ?_, ?_⟩ <;> simp [TrackParsed, lastVal, ovr, h1]

theorem tracks_step_n (st st' : PState) (f : Field) (h1 : f.type_ = 'n')
    (hstep : step st f = .ok st') : Tracks st st' [f] := by
  have he : st' = { st with constraint := some f.value } := by
    simp [step, h1] at hstep; exact hstep.symm
  subst he
  refine ⟨?_, ?_, ?_, ?_, ?_, ?_, ?_, ?_, ?_, ?_, ?_, ?_, ?_, ?_, ?_, ?_,
    ?_, ?_⟩ <;> simp [TrackParsed, lastVal, ovr, h1]

theorem tracks_step_F (st st' : PState) (f : Field) (h1 : f.type_ = 'F')
    (hstep : step st f = .ok st') : Tracks st st' [f] := by
  have he : st' = { st with file := some f.value } := by
    simp [step, h1] at hstep; exact hstep.symm
  subst he
  refine ⟨?_, ?_, ?_, ?_, ?_, ?_, ?_, ?_, ?_, ?_, ?_, ?_, ?_, ?_, ?_, ?_,
    ?_, ?_⟩ <;> simp [TrackParsed, lastVal, ovr, h1]

theorem tracks_step_L (st st' : PState) (f : Field) (h1 : f.type_ = 'L')
    (hstep : step st f = .ok st') : Tracks st st' [f] := by
  cases hp : parseU32 f.value with
  | none => simp [step, h1, hp] at hstep
  | some n =>
    have he : st' = { st with line := some n } := by
      simp [step, h1, hp] at hstep; exact hstep.symm
    subst he
    refine ⟨?_, ?_, ?_, ?_, ?_, ?_, ?_, ?_, ?_, ?_, ?_, ?_, ?_, ?_, ?_, ?_,
      ?_, ?_⟩ <;> simp [TrackParsed, lastVal, ovr, h1, hp]

theorem tracks_step_R (st st' : PState) (f : Field) (h1 : f.type_ = 'R')
    (hstep : step st f = .ok st') : Tracks st st' [f] := by
  have he : st' = { st with routine := some f.value } := by
    simp [step, h1] at hstep; exact hstep.symm
  subst he
  refine ⟨?_, ?_, ?_, ?_, ?_, ?_, ?_, ?_, ?_, ?_, ?_, ?_, ?_, ?_, ?_, ?_,
    ?_, ?_⟩ <;> simp [TrackParsed, lastVal, ovr, h1]

theorem tracks_step_V (st st' : PState) (f : Field) (h1 : f.type_ = 'V')
    (hstep : step st f = .ok st') : Tracks st st' [f] := by
  cases hp : Severity.from_str f.value with
  | none => simp [step, h1, hp] at hstep
  | some sv =>
    have he : st' = { st with parsed_severity := some sv } := by
      simp [step, h1, hp] at hstep; exact hstep.symm
    subst he
    refine ⟨?_, ?_, ?_, ?_, ?_, ?_, ?_, ?_, ?_, ?_, ?_, ?_, ?_, ?_, ?_, ?_,
      ?_, ?_⟩ <;> simp [TrackParsed, lastVal, ovr, h1, hp]

theorem tracks_step (st st' : PState) (f : Field)
    (h : step st f = .ok st') : Tracks st st' [f] := by
  by_cases h1 : f.type_ = 'S'
  · exact tracks_step_S st st' f h1 h
  by_cases h2 : f.type_ = 'C'
  · exact tracks_step_C st st' f h2 h
  by_cases h3 : f.type_ = 'M'
  · exact tracks_step_M st st' f h3 h
  by_cases h4 : f.type_ = 'D'
  · exact tracks_step_D st st' f h4 h
  by_cases h5 : f.type_ = 'H'
  · exact tracks_step_H st st' f h5 h
  by_cases h6 : f.type_ = 'P'
  · exact tracks_step_P st st' f h6 h
  by_cases h7 : f.type_ = 'p'
  · exact tracks_step_p st st' f h7 h
  by_cases h8 : f.type_ = 'q'
  · exact tracks_step_q st st' f h8 h
  by_cases h9 : f.type_ = 'W'
  · exact tracks_step_W st st' f h9 h
  by_cases h10 : f.type_ = 's'
  · exact tracks_step_s st st' f h10 h
  by_cases h11 : f.type_ = 't'
  · exact tracks_step_t st st' f h11 h
  by_cases h12 : f.type_ = 'c'
  · exact tracks_step_c st st' f h12 h
  by_cases h13 : f.type_ = 'd'
  · exact tracks_step_d st st' f h13 h
  by_cases h14 : f.type_ = 'n'
  · exact tracks_step_n st st' f h14 h
  by_cases h15 : f.type_ = 'F'
  · exact tracks_step_F st st' f h15 h
  by_cases h16 : f.type_ = 'L'
  · exact tracks_step_L st st' f h16 h
  by_cases h17 : f.type_ = 'R'
  · exact tracks_step_R st st' f h17 h
  by_cases h18 : f.type_ = 'V'
  · exact tracks_step_V st st' f h18 h
  have he : st' = st := by
    simp [step, h1, h2, h3, h4, h5, h6, h7, h8, h9, h10, h11, h12, h13, h14,
      h15, h16, h17, h18] at h
    exact h.symm
  subst he
  refine ⟨?_, ?_, ?_, ?_, ?_, ?_, ?_, ?_, ?_, ?_, ?_, ?_, ?_, ?_, ?_, ?_,
    ?_, ?_⟩ <;>
    simp [TrackParsed, lastVal, ovr, h1, h2, h3, h4, h5, h6, h7, h8, h9, h10,
      h11, h12, h13, h14, h15, h16, h17, h18]

theorem tracks_append {st st1 st' : PState} (fs gs : List Field)
    (H1 : Tracks st st1 fs) (H2 : Tracks st1 st' gs) :
    Tracks st st' (fs ++ gs) := by
  obtain ⟨a1, a2, a3, a4, a5, a6, a7, a8, a9, a10, a11, a12, a13, a14, a15,
    a16, a17, a18⟩ := H1
  obtain ⟨b1, b2, b3, b4, b5, b6, b7, b8, b9, b10, b11, b12, b13, b14, b15,
    b16, b17, b18⟩ := H2
  refine ⟨?_, ?_, ?_, ?_, ?_, ?_, ?_, ?_, ?_, ?_, ?_, ?_, ?_, ?_, ?_, ?_,
    ?_, ?_⟩
  · rw [lastVal_append]; exact ovr_chain b1 a1
  · rw [lastVal_append]; exact trackParsed_comp b2 a2
  · rw [lastVal_append, ovr_map]; exact ovr_chain b3 a3
  · rw [lastVal_append]; exact ovr_chain b4 a4
  · rw [lastVal_append]; exact ovr_chain b5 a5
  · rw [lastVal_append]; exact ovr_chain b6 a6
  · rw [lastVal_append]; exact trackParsed_comp b7 a7
  · rw [lastVal_append]; exact trackParsed_comp b8 a8
  · rw [lastVal_append]; exact ovr_chain b9 a9
  · rw [lastVal_append]; exact ovr_chain b10 a10
  · rw [lastVal_append]; exact ovr_chain b11 a11
  · rw [lastVal_append]; exact ovr_chain b12 a12
  · rw [lastVal_append]; exact ovr_chain b13 a13
  · rw [lastVal_append]; exact ovr_chain b14 a14
  · rw [lastVal_append]; exact ovr_chain b15 a15
  · rw [lastVal_append]; exact ovr_chain b16 a16
  · rw [lastVal_append]; exact trackParsed_comp b17 a17
  · rw [lastVal_append]; exact ovr_chain b18 a18

theorem tracks_ok : ∀ (fs : List Field) (st st' : PState),
    parsePass fs st = .ok st' → Tracks st st' fs := by
  intro fs
  induction fs with
  | nil =>
    intro st st' h
    cases h
    exact tracks_nil st
  | cons f fs ih =>
    intro st st' h
    unfold parsePass at h
    cases hs : step st f with
    | error e => rw [hs] at h; cases h
    | ok st1 =>
      rw [hs] at h
      have t1 := tracks_step st st1 f hs
      have t2 := ih st1 st' h
      have t3 := tracks_append [f] fs t1 t2
      simpa using t3

theorem build_ok_fields (st : PState) (d : DbError) (h : build st = .ok d) :
    st.severity = some d.severity ∧ st.parsed_severity = d.parsed_severity ∧
    st.code = some d.code ∧ st.message = some d.message ∧
    st.detail = d.detail ∧ st.hint = d.hint ∧
    st.where_ = d.where_ ∧ st.schema = d.schema ∧ st.table = d.table ∧
    st.column = d.column ∧ st.datatype = d.datatype ∧
    st.constraint = d.constraint ∧ st.file = d.file ∧ st.line = d.line ∧
    st.routine = d.routine ∧
    (∀ p, st.normal_position = some p →
      d.position = some (ErrorPosition.Original p)) ∧
    (∀ p, st.normal_position = none → st.internal_position = some p →
      ∃ q, st.internal_query = some q ∧
        d.position = some (ErrorPosition.Internal p q)) ∧
    (st.normal_position = none → st.internal_position = none →
      d.position = none) := by
  unfold build at h
  repeat' split at h
  all_goals try cases h
  all_goals simp_all

theorem build_err_S (st : PState) (h : st.severity = none) :
    build st = .error "`S` field missing" := by
  simp [build, h]

theorem build_err_C (st : PState) (sv : String) (hs : st.severity = some sv)
    (h : st.code = none) : build st = .error "`C` field missing" := by
  simp [build, hs, h]

theorem build_err_M (st : PState) (sv : String) (cv : SqlState)
    (hs : st.severity = some sv) (hc : st.code = some cv)
    (h : st.message = none) : build st = .error "`M` field missing" := by
  simp [build, hs, hc, h]

theorem build_err_q (st : PState) (sv : String) (cv : SqlState) (mv : String)
    (n : Nat) (hs : st.severity = some sv) (hc : st.code = some cv)
    (hm : st.message = some mv) (hn : st.normal_position = none)
    (hi : st.internal_position = some n) (hq : st.internal_query = none) :
    build st = .error "`q` field missing but `p` field present" := by
  simp [build, hs, hc, hm, hn, hi, hq]

theorem parse_ok_elim (fs : List Field) (d : DbError)
    (h : DbError.parse fs = .ok d) :
    ∃ st, parsePass fs initState = .ok st ∧ Tracks initState st fs ∧
      build st = .ok d := by
  unfold DbError.parse at h
  cases hp : parsePass fs initState with
  | error e => rw [hp] at h; cases h
  | ok st =>
    rw [hp] at h
    exact ⟨st, rfl, tracks_ok fs initState st hp, h⟩

theorem parsePass_append (fs gs : List Field) (st : PState) :
    parsePass (fs ++ gs) st =
      match parsePass fs st with
      | .ok st1 => parsePass gs st1
      | .error e => .error e := by
  induction fs generalizing st with
  | nil => rfl
  | cons f fs ih =>
    simp only [List.cons_append, parsePass]
    cases hs : step st f with
    | error e => rfl
    | ok st1 => exact ih st1

theorem step_unrecognized (st : PState) (f : Field)
    (h : recognizedCode f.type_ = false) : step st f = .ok st := by
  have n1 : ¬ f.type_ = 'S' := fun he => by simp [recognizedCode, he] at h
  have n2 : ¬ f.type_ = 'C' := fun he => by simp [recognizedCode, he] at h
  have n3 : ¬ f.type_ = 'M' := fun he => by simp [recognizedCode, he] at h
  have n4 : ¬ f.type_ = 'D' := fun he => by simp [recognizedCode, he] at h
  have n5 : ¬ f.type_ = 'H' := fun he => by simp [recognizedCode, he] at h
  have n6 : ¬ f.type_ = 'P' := fun he => by simp [recognizedCode, he] at h
  have n7 : ¬ f.type_ = 'p' := fun he => by simp [recognizedCode, he] at h
  have n8 : ¬ f.type_ = 'q' := fun he => by simp [recognizedCode, he] at h
  have n9 : ¬ f.type_ = 'W' := fun he => by simp [recognizedCode, he] at h
  have n10 : ¬ f.type_ = 's' := fun he => by simp [recognizedCode, he] at h
  have n11 : ¬ f.type_ = 't' := fun he => by simp [recognizedCode, he] at h
  have n12 : ¬ f.type_ = 'c' := fun he => by simp [recognizedCode, he] at h
  have n13 : ¬ f.type_ = 'd' := fun he => by simp [recognizedCode, he] at h
  have n14 : ¬ f.type_ = 'n' := fun he => by simp [recognizedCode, he] at h
  have n15 : ¬ f.type_ = 'F' := fun he => by simp [recognizedCode, he] at h
  have n16 : ¬ f.type_ = 'L' := fun he => by simp [recognizedCode, he] at h
  have n17 : ¬ f.type_ = 'R' := fun he => by simp [recognizedCode, he] at h
  have n18 : ¬ f.type_ = 'V' := fun he => by simp [recognizedCode, he] at h
  simp [step, n1, n2, n3, n4, n5, n6, n7, n8, n9, n10, n11, n12, n13, n14,
    n15, n16, n17, n18]

theorem pass_filter (fs : List Field) (st : PState) :
    parsePass fs st =
      parsePass (fs.filter (fun f => recognizedCode f.type_)) st := by
  induction fs generalizing st with
  | nil => rfl
  | cons f fs ih =>
    by_cases hr : recognizedCode f.type_ = true
    · rw [List.filter_cons_of_pos (by simpa using hr)]
      simp only [parsePass]
      cases hs : step st f with
      | error e => rfl
      | ok st1 => exact ih st1
    · rw [List.filter_cons_of_neg (by simpa using hr)]
      simp only [parsePass,
        step_unrecognized st f (by simpa using hr)]
      exact ih st

/-- C2: in `DbError::parse`, the resulting position is determined as
follows: if a `P` (original position) field was seen, the position is
`Original` with that offset (the last `P` occurrence), regardless of any
`p`/`q` fields; otherwise, a seen `p` field makes the position `Internal`
with that offset and the `q` text, and parsing fails with the fault
saying the `q` field is missing but `p` is present when `q` is absent
(and the mandatory fields are present, which are checked first); if
neither `P` nor `p` was seen, the position is absent. -/
theorem c2 (fs : List Field) :
    (∀ d : DbError, DbError.parse fs = .ok d →
      (∀ v, lastVal 'P' fs = some v →
        ∃ n, parseU32 v = some n ∧
          d.position = some (ErrorPosition.Original n)) ∧
      (lastVal 'P' fs = none → ∀ v, lastVal 'p' fs = some v →
        ∃ n q, parseU32 v = some n ∧ lastVal 'q' fs = some q ∧
          d.position = some (ErrorPosition.Internal n q)) ∧
      (lastVal 'P' fs = none → lastVal 'p' fs = none →
        d.position = none)) ∧
    (∀ st v, parsePass fs initState = .ok st →
      lastVal 'P' fs = none → lastVal 'p' fs = some v →
      lastVal 'q' fs = none → hasCode 'S' fs = true →
      hasCode 'C' fs = true → hasCode 'M' fs = true →
      DbError.parse fs =
        .error "`q` field missing but `p` field present") := by
  constructor
  · intro d hok
    obtain ⟨st, hpass, htr, hbuild⟩ := parse_ok_elim fs d hok
    obtain ⟨t1, t2, t3, t4, t5, t6, t7, t8, t9, t10, t11, t12, t13, t14,
      t15, t16, t17, t18⟩ := htr
    obtain ⟨b1, b2, b3, b4, b5, b6, b7, b8, b9, b10, b11, b12, b13, b14,
      b15, bp1, bp2, bp3⟩ := build_ok_fields st d hbuild
    refine ⟨?_, ?_, ?_⟩
    · intro v hv
      rw [hv] at t7
      simp only [TrackParsed] at t7
      obtain ⟨n, hn, hsn⟩ := t7
      exact ⟨n, hn, bp1 n hsn⟩
    · intro hP v hv
      rw [hP] at t7
      simp only [TrackParsed] at t7
      have hnp : st.normal_position = none := by simpa [initState] using t7
      rw [hv] at t8
      simp only [TrackParsed] at t8
      obtain ⟨n, hn, hin⟩ := t8
      obtain ⟨q, hq, hdq⟩ := bp2 n hnp hin
      have hq9 : lastVal 'q' fs = some q := by
        rw [t9] at hq
        simpa [initState, ovr_none_right] using hq
      exact ⟨n, q, hn, hq9, hdq⟩
    · intro hP hp
      rw [hP] at t7
      simp only [TrackParsed] at t7
      have hnp : st.normal_position = none := by simpa [initState] using t7
      rw [hp] at t8
      simp only [TrackParsed] at t8
      have hip : st.internal_position = none := by simpa [initState] using t8
      exact bp3 hnp hip
  · intro st v hpass hP hp hq hS hC hM
    have htr := tracks_ok fs initState st hpass
    obtain ⟨t1, t2, t3, t4, t5, t6, t7, t8, t9, t10, t11, t12, t13, t14,
      t15, t16, t17, t18⟩ := htr
    have hs1 : (lastVal 'S' fs).isSome = true := by
      rw [lastVal_isSome]; exact hS
    obtain ⟨sv, hsv⟩ := Option.isSome_iff_exists.mp hs1
    have hsev : st.severity = some sv := by rw [t1, hsv]; rfl
    have hc1 : (lastVal 'C' fs).isSome = true := by
      rw [lastVal_isSome]; exact hC
    obtain ⟨cv, hcv⟩ := Option.isSome_iff_exists.mp hc1
    have hcode : st.code = some (SqlState.from_code cv) := by
      rw [t3, hcv]; rfl
    have hm1 : (lastVal 'M' fs).isSome = true := by
      rw [lastVal_isSome]; exact hM
    obtain ⟨mv, hmv⟩ := Option.isSome_iff_exists.mp hm1
    have hmsg : st.message = some mv := by rw [t4, hmv]; rfl
    rw [hP] at t7
    simp only [TrackParsed] at t7
    have hnp : st.normal_position = none := by simpa [initState] using t7
    rw [hp] at t8
    simp only [TrackParsed] at t8
    obtain ⟨n, hn, hin⟩ := t8
    have hqn : st.internal_query = none := by
      rw [t9, hq]; rfl
    unfold DbError.parse
    rw [hpass]
    exact build_err_q st sv (SqlState.from_code cv) mv n hsev hcode hmsg
      hnp hin hqn

/-- Witness for C2 at the concrete message `fsPos`: it parses, and since
a `P` field is present, the position is `Original 7` even though `p`/`q`
fields are present. -/
theorem c2_witness :
    DbError.parse fsPos = .ok dbPos ∧
      (∃ n, parseU32 "7" = some n ∧
        dbPos.position = some (ErrorPosition.Original n)) :=
  ⟨by rfl, ((c2 fsPos).1 dbPos (by rfl)).1 "7" (by rfl)⟩

/-- C3: if any of the three mandatory fields — severity text `S`,
SQLSTATE code `C`, or message text `M` — was never seen, `DbError::parse`
never produces a `DbError`; and when the field pass itself completes, it
fails with the field-specific "field missing" fault naming exactly that
field (the first missing one in the order `S`, `C`, `M` in which the
record is assembled). -/
theorem c3 (fs : List Field)
    (hmiss : hasCode 'S' fs = false ∨ hasCode 'C' fs = false ∨
      hasCode 'M' fs = false) :
    (∀ d : DbError, DbError.parse fs ≠ .ok d) ∧
    (∀ st, parsePass fs initState = .ok st →
      (hasCode 'S' fs = false →
        DbError.parse fs = .error "`S` field missing") ∧
      (hasCode 'S' fs = true → hasCode 'C' fs = false →
        DbError.parse fs = .error "`C` field missing") ∧
      (hasCode 'S' fs = true → hasCode 'C' fs = true →
        hasCode 'M' fs = false →
        DbError.parse fs = .error "`M` field missing")) := by
  constructor
  · intro d hok
    obtain ⟨st, hpass, htr, hbuild⟩ := parse_ok_elim fs d hok
    obtain ⟨t1, t2, t3, t4, t5, t6, t7, t8, t9, t10, t11, t12, t13, t14,
      t15, t16, t17, t18⟩ := htr
    obtain ⟨b1, b2, b3, b4, b5, b6, b7, b8, b9, b10, b11, b12, b13, b14,
      b15, bp1, bp2, bp3⟩ := build_ok_fields st d hbuild
    rcases hmiss with hS | hC | hM
    · have hl : lastVal 'S' fs = none := by
        have := lastVal_isSome 'S' fs
        rw [hS] at this
        exact Option.not_isSome_iff_eq_none.mp (by simp [this])
      rw [t1, hl] at b1
      simp [initState, ovr] at b1
    · have hl : lastVal 'C' fs = none := by
        have := lastVal_isSome 'C' fs
        rw [hC] at this
        exact Option.not_isSome_iff_eq_none.mp (by simp [this])
      rw [t3, hl] at b3
      simp [initState, ovr] at b3
    · have hl : lastVal 'M' fs = none := by
        have := lastVal_isSome 'M' fs
        rw [hM] at this
        exact Option.not_isSome_iff_eq_none.mp (by simp [this])
      rw [t4, hl] at b4
      simp [initState, ovr] at b4
  · intro st hpass
    have htr := tracks_ok fs initState st hpass
    obtain ⟨t1, t2, t3, t4, t5, t6, t7, t8, t9, t10, t11, t12, t13, t14,
      t15, t16, t17, t18⟩ := htr
    refine ⟨?_, ?_, ?_⟩
    · intro hS
      have hl : lastVal 'S' fs = none := by
        have := lastVal_isSome 'S' fs
        rw [hS] at this
        exact Option.not_isSome_iff_eq_none.mp (by simp [this])
      have hsev : st.severity = none := by rw [t1, hl]; rfl
      unfold DbError.parse
      rw [hpass]
      exact build_err_S st hsev
    · intro hS hC
      obtain ⟨sv, hsv⟩ := Option.isSome_iff_exists.mp
        (by rw [lastVal_isSome]; exact hS)
      have hsev : st.severity = some sv := by rw [t1, hsv]; rfl
      have hl : lastVal 'C' fs = none := by
        have := lastVal_isSome 'C' fs
        rw [hC] at this
        exact Option.not_isSome_iff_eq_none.mp (by simp [this])
      have hcode : st.code = none := by rw [t3, hl]; rfl
      unfold DbError.parse
      rw [hpass]
      exact build_err_C st sv hsev hcode
    · intro hS hC hM
      obtain ⟨sv, hsv⟩ := Option.isSome_iff_exists.mp
        (by rw [lastVal_isSome]; exact hS)
      have hsev : st.severity = some sv := by rw [t1, hsv]; rfl
      obtain ⟨cv, hcv⟩ := Option.isSome_iff_exists.mp
        (by rw [lastVal_isSome]; exact hC)
      have hcode : st.code = some (SqlState.from_code cv) := by
        rw [t3, hcv]; rfl
      have hl : lastVal 'M' fs = none := by
        have := lastVal_isSome 'M' fs
        rw [hM] at this
        exact Option.not_isSome_iff_eq_none.mp (by simp [this])
      have hmsg : st.message = none := by rw [t4, hl]; rfl
      unfold DbError.parse
      rw [hpass]
      exact build_err_M st sv (SqlState.from_code cv) hsev hcode hmsg

/-- Witness for C3 at the concrete message `fsNoM` (no `M` field): the
pass completes in state `stNoM` and parsing fails naming the `M`
field. -/
theorem c3_witness :
    hasCode 'M' fsNoM = false ∧
      DbError.parse fsNoM = .error "`M` field missing" :=
  ⟨by rfl,
    ((c3 fsNoM (Or.inr (Or.inr (by rfl)))).2 stNoM (by rfl)).2.2
      (by rfl) (by rfl) (by rfl)⟩

/-- C4: a `P` or `L` field whose value does not parse as a non-negative
32-bit integer makes `DbError::parse` fail immediately with the
structured "field did not contain an integer" fault naming that field
code, and a `V` field whose value is not one of the 8 severity tokens
fails immediately with the "invalid value" fault — in each case whatever
fields follow are never examined (the result does not depend on them)
and no `DbError` is produced. -/
theorem c4 (fs1 fs2 : List Field) (v : String) (st : PState)
    (hpass : parsePass fs1 initState = .ok st) :
    (parseU32 v = none →
      DbError.parse (fs1 ++ Field.mk 'P' v :: fs2) =
        .error "`P` field did not contain an integer" ∧
      DbError.parse (fs1 ++ Field.mk 'L' v :: fs2) =
        .error "`L` field did not contain an integer") ∧
    (Severity.from_str v = none →
      DbError.parse (fs1 ++ Field.mk 'V' v :: fs2) =
        .error "`V` field contained an invalid value") := by
  constructor
  · intro hv
    constructor
    · unfold DbError.parse
      rw [parsePass_append, hpass]
      simp [parsePass, step, hv]
    · unfold DbError.parse
      rw [parsePass_append, hpass]
      simp [parsePass, step, hv]
  · intro hv
    unfold DbError.parse
    rw [parsePass_append, hpass]
    simp [parsePass, step, hv]

/-- Witness for C4: a lone non-numeric `P` field fails with the integer
fault (the empty prefix passes trivially). -/
theorem c4_witness :
    parseU32 "x7" = none ∧
      DbError.parse [Field.mk 'P' "x7"] =
        .error "`P` field did not contain an integer" :=
  ⟨by rfl, ((c4 [] [] "x7" initState (by rfl)).1 (by rfl)).1⟩

/-- C5: for every recognized field code the last occurrence in the input
sequence determines the resulting record (duplicates are not an error:
every field of a successfully parsed record is the last occurrence of
its code, run through its validator where applicable), and unrecognized
field codes are silently ignored: the parse result is identical to
parsing the sequence with the unrecognized fields removed. -/
theorem c5 (fs : List Field) :
    DbError.parse fs =
      DbError.parse (fs.filter (fun f => recognizedCode f.type_)) ∧
    (∀ d : DbError, DbError.parse fs = .ok d →
      lastVal 'S' fs = some d.severity ∧
      (lastVal 'C' fs).map SqlState.from_code = some d.code ∧
      lastVal 'M' fs = some d.message ∧
      d.parsed_severity = (lastVal 'V' fs).bind Severity.from_str ∧
      d.detail = lastVal 'D' fs ∧
      d.hint = lastVal 'H' fs ∧
      d.where_ = lastVal 'W' fs ∧
      d.schema = lastVal 's' fs ∧
      d.table = lastVal 't' fs ∧
      d.column = lastVal 'c' fs ∧
      d.datatype = lastVal 'd' fs ∧
      d.constraint = lastVal 'n' fs ∧
      d.file = lastVal 'F' fs ∧
      d.line = (lastVal 'L' fs).bind parseU32 ∧
      d.routine = lastVal 'R' fs) := by
  constructor
  · unfold DbError.parse
    rw [pass_filter]
  · intro d hok
    obtain ⟨st, hpass, htr, hbuild⟩ := parse_ok_elim fs d hok
    obtain ⟨t1, t2, t3, t4, t5, t6, t7, t8, t9, t10, t11, t12, t13, t14,
      t15, t16, t17, t18⟩ := htr
    obtain ⟨b1, b2, b3, b4, b5, b6, b7, b8, b9, b10, b11, b12, b13, b14,
      b15, bp1, bp2, bp3⟩ := build_ok_fields st d hbuild
    refine ⟨?_, ?_, ?_, ?_, ?_, ?_, ?_, ?_, ?_, ?_, ?_, ?_, ?_, ?_, ?_⟩
    · rw [t1] at b1
      cases hl : lastVal 'S' fs with
      | none => rw [hl] at b1; simp [initState, ovr] at b1
      | some sv => rw [hl] at b1; simpa [ovr] using b1
    · rw [t3] at b3
      cases hl : lastVal 'C' fs with
      | none => rw [hl] at b3; simp [initState, ovr] at b3
      | some cv => rw [hl] at b3; simpa [ovr] using b3
    · rw [t4] at b4
      cases hl : lastVal 'M' fs with
      | none => rw [hl] at b4; simp [initState, ovr] at b4
      | some mv => rw [hl] at b4; simpa [ovr] using b4
    · cases hl : lastVal 'V' fs with
      | none =>
        rw [hl] at t2
        simp only [TrackParsed] at t2
        rw [← b2, t2]
        simp [initState]
      | some vv =>
        rw [hl] at t2
        simp only [TrackParsed] at t2
        obtain ⟨b, hb, hsb⟩ := t2
        rw [← b2, hsb, Option.bind, hb]
    · rw [← b5, t5]
      simp [initState, ovr_none_right]
    · rw [← b6, t6]
      simp [initState, ovr_none_right]
    · rw [← b7, t10]
      simp [initState, ovr_none_right]
    · rw [← b8, t11]
      simp [initState, ovr_none_right]
    · rw [← b9, t12]
      simp [initState, ovr_none_right]
    · rw [← b10, t13]
      simp [initState, ovr_none_right]
    · rw [← b11, t14]
      simp [initState, ovr_none_right]
    · rw [← b12, t15]
      simp [initState, ovr_none_right]
    · rw [← b13, t16]
      simp [initState, ovr_none_right]
    · cases hl : lastVal 'L' fs with
      | none =>
        rw [hl] at t17
        simp only [TrackParsed] at t17
        rw [← b14, t17]
        simp [initState]
      | some lv =>
        rw [hl] at t17
        simp only [TrackParsed] at t17
        obtain ⟨b, hb, hsb⟩ := t17
        rw [← b14, hsb, Option.bind, hb]
    · rw [← b15, t18]
      simp [initState, ovr_none_right]

/-- Witness for C5 at the concrete message `fsDup`: duplicated `S`/`M`
fields and an unrecognized `Z` field; the parse succeeds, the severity
is the last `S` occurrence. -/
theorem c5_witness :
    DbError.parse fsDup = .ok dbDup ∧
      lastVal 'S' fsDup = some dbDup.severity :=
  ⟨by rfl, ((c5 fsDup).2 dbDup (by rfl)).1⟩

/-- C7: displaying an `Error` or a `Kind` yields one stable message
determined by the variant: an `Error` renders exactly its wrapped
`Kind`; `ToSql(idx, cause)` renders
"error serializing parameter {idx}: {cause}"; and
`RowCount{expected: Zero, got: MoreThanOne}` renders
"query returned an unexpected number of rows, expected zero, got more
than one". -/
theorem c7 :
    (∀ e : Error, e.display = e.kind.display) ∧
    (∀ (idx : Nat) (cause : String),
      (Kind.ToSql idx cause).display =
        "error serializing parameter " ++ toString idx ++ ": " ++ cause) ∧
    ((Kind.RowCount RowCountCategory.Zero
        RowCountCategory.MoreThanOne).display =
      "query returned an unexpected number of rows, expected zero, got more than one") := by
  refine ⟨fun e => rfl, fun idx cause => rfl, by rfl⟩

/-- C8: `is_closed` holds exactly when the `Kind` is `Closed`;
`as_db_error` yields the nested `DbError` exactly when the `Kind` is the
server-reported `Db` variant; `code` yields the nested SQLSTATE exactly
when the `Kind` is `Db`. -/
theorem c8 (e : Error) :
    (e.is_closed = true ↔ e.kind = Kind.Closed) ∧
    (∀ d : DbError, e.as_db_error = some d ↔ e.kind = Kind.Db d) ∧
    (e.as_db_error = none ↔ ∀ d : DbError, e.kind ≠ Kind.Db d) ∧
    (∀ s : SqlState, e.code = some s ↔
      ∃ d : DbError, e.kind = Kind.Db d ∧ d.code = s) := by
  obtain ⟨k⟩ := e
  refine ⟨?_, ?_, ?_, ?_⟩
  · cases k <;> simp [Error.is_closed]
  · intro d
    cases k <;> simp [Error.as_db_error]
  · cases k <;> simp [Error.as_db_error]
  · intro s
    cases k <;> simp [Error.code, Error.as_db_error]

theorem parseFrame_frame (b : ProtoRangeBound) (rest : List Nat) :
    parseFrame (frameBytes b ++ rest) = .ok (b, rest) := by
  cases b with
  | Unbounded => rfl
  | Inclusive payload =>
    cases payload with
    | none => rfl
    | some p =>
      simp [frameBytes, parseFrame, List.take_left, List.drop_left]
  | Exclusive payload =>
    cases payload with
    | none => rfl
    | some p =>
      simp [frameBytes, parseFrame, List.take_left, List.drop_left]

theorem range_from_to (l u : ProtoRangeBound) :
    range_from_sql (rangeToSql l u) = .ok (ProtoRange.Nonempty l u) := by
  have hu := parseFrame_frame u []
  rw [List.append_nil] at hu
  simp [rangeToSql, range_from_sql, parseFrame_frame l (frameBytes u), hu]

theorem bound_round {α : Type} (elem : ElemCodec α) (ety : PgType)
    (hrt : ElemRoundTrip elem ety) (b : Option (RangeBound α))
    (pb : ProtoRangeBound) (henc : bound_to_sql elem ety b = .ok pb) :
    bound_from_sql elem ety pb = .ok b := by
  cases b with
  | none =>
    simp [bound_to_sql] at henc
    rw [← henc]
    rfl
  | some rb =>
    obtain ⟨value, btype⟩ := rb
    cases hch : elem.to_sql value ety with
    | error e => simp [bound_to_sql, hch] at henc
    | ok pr =>
      obtain ⟨isn, bs⟩ := pr
      have hrt2 := hrt value isn bs hch
      cases isn with
      | No =>
        have hdec := hrt2.1 rfl
        cases btype <;> simp [bound_to_sql, hch] at henc <;>
          rw [← henc] <;> simp [bound_from_sql, hdec]
      | Yes =>
        have hdec := hrt2.2 rfl
        cases btype <;> simp [bound_to_sql, hch] at henc <;>
          rw [← henc] <;> simp [bound_from_sql, hdec]

/-- C1: for every representable range value, encoding with the `Range`
`ToSql` implementation and decoding the produced wire bytes with the
`Range` `FromSql` implementation yields the original value, provided the
type descriptor has kind `Range(elementType)` and the element codec
round-trips. -/
theorem c1 {α : Type} (elem : ElemCodec α) (ty ety : PgType)
    (hty : ty.kind = PgKind.Range ety) (hrt : ElemRoundTrip elem ety)
    (r : Range α) (isn : IsNull) (bytes : List Nat)
    (henc : Range.to_sql elem ty r = .ok (isn, bytes)) :
    Range.from_sql elem ty bytes = .ok r := by
  cases r with
  | Empty =>
    simp [Range.to_sql, hty] at henc
    obtain ⟨h1, h2⟩ := henc
    rw [← h2]
    simp [Range.from_sql, hty, range_from_sql, emptyRangeToSql]
  | Nonempty lower upper =>
    cases hl : bound_to_sql elem ety lower with
    | error e => simp [Range.to_sql, hty, hl] at henc
    | ok lf =>
      cases hup : bound_to_sql elem ety upper with
      | error e => simp [Range.to_sql, hty, hl, hup] at henc
      | ok uf =>
        simp [Range.to_sql, hty, hl, hup] at henc
        obtain ⟨h1, h2⟩ := henc
        rw [← h2]
        simp [Range.from_sql, hty, range_from_to lf uf,
          bound_round elem ety hrt lower lf hl,
          bound_round elem ety hrt upper uf hup]

/-- The element codec `elemNat` round-trips over `tyInt`. -/
theorem elemNat_rt : ElemRoundTrip elemNat tyInt := by
  intro x isn bs h
  simp [elemNat] at h
  obtain ⟨h1, h2⟩ := h
  constructor
  · intro _
    rw [← h2]
    simp [elemNat]
  · intro hyes
    rw [← h1] at hyes
    cases hyes

/-- Witness for C1: the end-to-end example of the spec, an inclusive 0
to exclusive 10 range over the `Nat` element codec, encodes to concrete
wire bytes and decodes back to the identical value. -/
theorem c1_witness :
    Range.to_sql elemNat tyIntRange
        (Range.Nonempty (some (RangeBound.mk 0 BoundType.Inclusive))
          (some (RangeBound.mk 10 BoundType.Exclusive))) =
      .ok (IsNull.No, [0, 3, 1, 0, 5, 1, 10]) ∧
    Range.from_sql elemNat tyIntRange [0, 3, 1, 0, 5, 1, 10] =
      .ok (Range.Nonempty (some (RangeBound.mk 0 BoundType.Inclusive))
        (some (RangeBound.mk 10 BoundType.Exclusive))) :=
  ⟨by rfl,
    c1 elemNat tyIntRange tyInt (by rfl) elemNat_rt
      (Range.Nonempty (some (RangeBound.mk 0 BoundType.Inclusive))
        (some (RangeBound.mk 10 BoundType.Exclusive)))
      IsNull.No [0, 3, 1, 0, 5, 1, 10] (by rfl)⟩

theorem from_sql_no_panic {α : Type} (elem : ElemCodec α) (ty ety : PgType)
    (hty : ty.kind = PgKind.Range ety) (raw : List Nat) (m : String) :
    Range.from_sql elem ty raw ≠ .error (RangeFail.panicked m) := by
  intro h
  cases hr : range_from_sql raw with
  | error e => simp [Range.from_sql, hty, hr] at h
  | ok pr =>
    cases pr with
    | Empty => simp [Range.from_sql, hty, hr] at h
    | Nonempty l u =>
      cases hbl : bound_from_sql elem ety l with
      | error e => simp [Range.from_sql, hty, hr, hbl] at h
      | ok lo =>
        cases hbu : bound_from_sql elem ety u with
        | error e => simp [Range.from_sql, hty, hr, hbl, hbu] at h
        | ok up => simp [Range.from_sql, hty, hr, hbl, hbu] at h

theorem to_sql_no_panic {α : Type} (elem : ElemCodec α) (ty ety : PgType)
    (hty : ty.kind = PgKind.Range ety) (r : Range α) (m : String) :
    Range.to_sql elem ty r ≠ .error (RangeFail.panicked m) := by
  intro h
  cases r with
  | Empty => simp [Range.to_sql, hty] at h
  | Nonempty lower upper =>
    cases hl : bound_to_sql elem ety lower with
    | error e => simp [Range.to_sql, hty, hl] at h
    | ok lf =>
      cases hup : bound_to_sql elem ety upper with
      | error e => simp [Range.to_sql, hty, hl, hup] at h
      | ok uf => simp [Range.to_sql, hty, hl, hup] at h

/-- C6: the range codec's `accepts` holds exactly when the descriptor's
kind is `Range(inner)` with the element capability accepting `inner`;
decode and encode on a non-`Range` descriptor panic; and whenever
`accepts` holds the panic branch is unreachable (every failure is a
reportable fault). -/
theorem c6 {α : Type} (elem : ElemCodec α) (ty : PgType) :
    (Range.accepts elem ty = true ↔
      ∃ inner, ty.kind = PgKind.Range inner ∧ elem.accepts inner = true) ∧
    ((∀ inner, ty.kind ≠ PgKind.Range inner) →
      (∀ raw, ∃ m,
        Range.from_sql elem ty raw = .error (RangeFail.panicked m)) ∧
      (∀ r : Range α, ∃ m,
        Range.to_sql elem ty r = .error (RangeFail.panicked m))) ∧
    (Range.accepts elem ty = true →
      (∀ raw m,
        Range.from_sql elem ty raw ≠ .error (RangeFail.panicked m)) ∧
      (∀ (r : Range α) m,
        Range.to_sql elem ty r ≠ .error (RangeFail.panicked m))) := by
  refine ⟨?_, ?_, ?_⟩
  · cases hk : ty.kind <;> simp [Range.accepts, hk]
  · intro hnr
    cases hk : ty.kind
    case Range inner => exact absurd hk (hnr inner)
    all_goals exact ⟨fun raw => ⟨"unexpected type", by
        simp [Range.from_sql, hk]⟩,
      fun r => ⟨"unexpected type", by simp [Range.to_sql, hk]⟩⟩
  · intro hacc
    cases hk : ty.kind
    case Range inner =>
      exact ⟨fun raw m => from_sql_no_panic elem ty inner hk raw m,
        fun r m => to_sql_no_panic elem ty inner hk r m⟩
    all_goals simp [Range.accepts, hk] at hacc

/-- Witness for C6: `accepts` holds on the concrete range descriptor,
and decode there never takes the panic branch. -/
theorem c6_witness :
    Range.accepts elemNat tyIntRange = true ∧
      Range.from_sql elemNat tyIntRange [9] ≠
        Except.error (RangeFail.panicked "unexpected type") :=
  ⟨by rfl, ((c6 elemNat tyIntRange).2.2 (by rfl)).1 [9] "unexpected type"⟩

/-- C10: whenever the range `ToSql` encode succeeds it returns
`IsNull::No`: a range never self-reports as SQL NULL, including the
empty range and ranges whose bounds individually encode as null. -/
theorem c10 {α : Type} (elem : ElemCodec α) (ty : PgType) (r : Range α)
    (isn : IsNull) (bytes : List Nat)
    (h : Range.to_sql elem ty r = .ok (isn, bytes)) : isn = IsNull.No := by
  cases hk : ty.kind
  case Range ety =>
    cases r with
    | Empty =>
      simp [Range.to_sql, hk] at h
      exact h.1.symm
    | Nonempty lower upper =>
      cases hl : bound_to_sql elem ety lower with
      | error e => simp [Range.to_sql, hk, hl] at h
      | ok lf =>
        cases hup : bound_to_sql elem ety upper with
        | error e => simp [Range.to_sql, hk, hl, hup] at h
        | ok uf =>
          simp [Range.to_sql, hk, hl, hup] at h
          exact h.1.symm
  all_goals simp [Range.to_sql, hk] at h

/-- Witness for C10: the empty range encodes successfully and reports
`IsNull::No`. -/
theorem c10_witness :
    Range.to_sql elemNat tyIntRange (Range.Empty : Range Nat) =
      .ok (IsNull.No, emptyRangeToSql) ∧ IsNull.No = IsNull.No :=
  ⟨by rfl,
    c10 elemNat tyIntRange Range.Empty IsNull.No emptyRangeToSql (by rfl)⟩

theorem exc_ok {β γ : Type} (a : Except Error β) (k : β → Except Error γ)
    (w : γ) : exc a k = .ok w ↔ ∃ v, a = .ok v ∧ k v = .ok w := by
  cases a <;> simp [exc]

theorem exc_err {β γ : Type} (a : Except Error β) (k : β → Except Error γ)
    (e : Error) :
    exc a k = .error e ↔ (a = .error e ∨ ∃ v, a = .ok v ∧ k v = .error e) := by
  cases a <;> simp [exc]

theorem fromRow1_spec {α0 : Type} (d0 : Decoder α0)
    (row : Row) :
    (∀ (v0 : α0),
      fromRow1 d0 row = .ok v0 ↔
        tryGet d0 row 0 = .ok v0) ∧
    (∀ e : Error, fromRow1 d0 row = .error e →
      tryGet d0 row 0 = .error e) := by
  constructor
  · intro v0
    constructor
    · intro h
      simp only [fromRow1] at h
      obtain ⟨w0, h0, h⟩ := (exc_ok _ _ _).mp h
      simp only [Except.ok.injEq] at h
      subst h
      exact h0
    · intro h0
      simp only [fromRow1]
      exact (exc_ok _ _ _).mpr ⟨v0, h0, rfl⟩
  · intro e h
    simp only [fromRow1] at h
    rcases (exc_err _ _ _).mp h with h | ⟨w0, h0, h⟩
    · exact h
    cases h

theorem fromRow2_spec {α0 α1 : Type} (d0 : Decoder α0) (d1 : Decoder α1)
    (row : Row) :
    (∀ (v0 : α0) (v1 : α1),
      fromRow2 d0 d1 row = .ok (v0, v1) ↔
        (tryGet d0 row 0 = .ok v0 ∧
        tryGet d1 row 1 = .ok v1)) ∧
    (∀ e : Error, fromRow2 d0 d1 row = .error e →
      (tryGet d0 row 0 = .error e ∨
        tryGet d1 row 1 = .error e)) := by
  constructor
  · intro v0 v1
    constructor
    · intro h
      simp only [fromRow2] at h
      obtain ⟨w0, h0, h⟩ := (exc_ok _ _ _).mp h
      obtain ⟨w1, h1, h⟩ := (exc_ok _ _ _).mp h
      simp only [Except.ok.injEq, Prod.mk.injEq] at h
      obtain ⟨rfl, rfl⟩ := h
      exact ⟨h0, h1⟩
    · rintro ⟨h0, h1⟩
      simp only [fromRow2]
      exact (exc_ok _ _ _).mpr ⟨v0, h0, (exc_ok _ _ _).mpr ⟨v1, h1, rfl⟩⟩
  · intro e h
    simp only [fromRow2] at h
    rcases (exc_err _ _ _).mp h with h | ⟨w0, h0, h⟩
    · exact Or.inl h
    rcases (exc_err _ _ _).mp h with h | ⟨w1, h1, h⟩
    · exact Or.inr (h)
    cases h

theorem fromRow3_spec {α0 α1 α2 : Type} (d0 : Decoder α0) (d1 : Decoder α1) (d2 : Decoder α2)
    (row : Row) :
    (∀ (v0 : α0) (v1 : α1) (v2 : α2),
      fromRow3 d0 d1 d2 row = .ok (v0, v1, v2) ↔
        (tryGet d0 row 0 = .ok v0 ∧
        tryGet d1 row 1 = .ok v1 ∧
        tryGet d2 row 2 = .ok v2)) ∧
    (∀ e : Error, fromRow3 d0 d1 d2 row = .error e →
      (tryGet d0 row 0 = .error e ∨
        tryGet d1 row 1 = .error e ∨
        tryGet d2 row 2 = .error e)) := by
  constructor
  · intro v0 v1 v2
    constructor
    · intro h
      simp only [fromRow3] at h
      obtain ⟨w0, h0, h⟩ := (exc_ok _ _ _).mp h
      obtain ⟨w1, h1, h⟩ := (exc_ok _ _ _).mp h
      obtain ⟨w2, h2, h⟩ := (exc_ok _ _ _).mp h
      simp only [Except.ok.injEq, Prod.mk.injEq] at h
      obtain ⟨rfl, rfl, rfl⟩ := h
      exact ⟨h0, h1, h2⟩
    · rintro ⟨h0, h1, h2⟩
      simp only [fromRow3]
      exact (exc_ok _ _ _).mpr ⟨v0, h0, (exc_ok _ _ _).mpr ⟨v1, h1, (exc_ok _ _ _).mpr ⟨v2, h2, rfl⟩⟩⟩
  · intro e h
    simp only [fromRow3] at h
    rcases (exc_err _ _ _).mp h with h | ⟨w0, h0, h⟩
    · exact Or.inl h
    rcases (exc_err _ _ _).mp h with h | ⟨w1, h1, h⟩
    · exact Or.inr (Or.inl h)
    rcases (exc_err _ _ _).mp h with h | ⟨w2, h2, h⟩
    · exact Or.inr (Or.inr (h))
    cases h

theorem fromRow4_spec {α0 α1 α2 α3 : Type} (d0 : Decoder α0) (d1 : Decoder α1) (d2 : Decoder α2) (d3 : Decoder α3)
    (row : Row) :
    (∀ (v0 : α0) (v1 : α1) (v2 : α2) (v3 : α3),
      fromRow4 d0 d1 d2 d3 row = .ok (v0, v1, v2, v3) ↔
        (tryGet d0 row 0 = .ok v0 ∧
        tryGet d1 row 1 = .ok v1 ∧
        tryGet d2 row 2 = .ok v2 ∧
        tryGet d3 row 3 = .ok v3)) ∧
    (∀ e : Error, fromRow4 d0 d1 d2 d3 row = .error e →
      (tryGet d0 row 0 = .error e ∨
        tryGet d1 row 1 = .error e ∨
        tryGet d2 row 2 = .error e ∨
        tryGet d3 row 3 = .error e)) := by
  constructor
  · intro v0 v1 v2 v3
    constructor
    · intro h
      simp only [fromRow4] at h
      obtain ⟨w0, h0, h⟩ := (exc_ok _ _ _).mp h
      obtain ⟨w1, h1, h⟩ := (exc_ok _ _ _).mp h
      obtain ⟨w2, h2, h⟩ := (exc_ok _ _ _).mp h
      obtain ⟨w3, h3, h⟩ := (exc_ok _ _ _).mp h
      simp only [Except.ok.injEq, Prod.mk.injEq] at h
      obtain ⟨rfl, rfl, rfl, rfl⟩ := h
      exact ⟨h0, h1, h2, h3⟩
    · rintro ⟨h0, h1, h2, h3⟩
      simp only [fromRow4]
      exact (exc_ok _ _ _).mpr ⟨v0, h0, (exc_ok _ _ _).mpr ⟨v1, h1, (exc_ok _ _ _).mpr ⟨v2, h2, (exc_ok _ _ _).mpr ⟨v3, h3, rfl⟩⟩⟩⟩
  · intro e h
    simp only [fromRow4] at h
    rcases (exc_err _ _ _).mp h with h | ⟨w0, h0, h⟩
    · exact Or.inl h
    rcases (exc_err _ _ _).mp h with h | ⟨w1, h1, h⟩
    · exact Or.inr (Or.inl h)
    rcases (exc_err _ _ _).mp h with h | ⟨w2, h2, h⟩
    · exact Or.inr (Or.inr (Or.inl h))
    rcases (exc_err _ _ _).mp h with h | ⟨w3, h3, h⟩
    · exact Or.inr (Or.inr (Or.inr (h)))
    cases h

theorem fromRow5_spec {α0 α1 α2 α3 α4 : Type} (d0 : Decoder α0) (d1 : Decoder α1) (d2 : Decoder α2) (d3 : Decoder α3) (d4 : Decoder α4)
    (row : Row) :
    (∀ (v0 : α0) (v1 : α1) (v2 : α2) (v3 : α3) (v4 : α4),
      fromRow5 d0 d1 d2 d3 d4 row = .ok (v0, v1, v2, v3, v4) ↔
        (tryGet d0 row 0 = .ok v0 ∧
        tryGet d1 row 1 = .ok v1 ∧
        tryGet d2 row 2 = .ok v2 ∧
        tryGet d3 row 3 = .ok v3 ∧
        tryGet d4 row 4 = .ok v4)) ∧
    (∀ e : Error, fromRow5 d0 d1 d2 d3 d4 row = .error e →
      (tryGet d0 row 0 = .error e ∨
        tryGet d1 row 1 = .error e ∨
        tryGet d2 row 2 = .error e ∨
        tryGet d3 row 3 = .error e ∨
        tryGet d4 row 4 = .error e)) := by
  constructor
  · intro v0 v1 v2 v3 v4
    constructor
    · intro h
      simp only [fromRow5] at h
      obtain ⟨w0, h0, h⟩ := (exc_ok _ _ _).mp h
      obtain ⟨w1, h1, h⟩ := (exc_ok _ _ _).mp h
      obtain ⟨w2, h2, h⟩ := (exc_ok _ _ _).mp h
      obtain ⟨w3, h3, h⟩ := (exc_ok _ _ _).mp h
      obtain ⟨w4, h4, h⟩ := (exc_ok _ _ _).mp h
      simp only [Except.ok.injEq, Prod.mk.injEq] at h
      obtain ⟨rfl, rfl, rfl, rfl, rfl⟩ := h
      exact ⟨h0, h1, h2, h3, h4⟩
    · rintro ⟨h0, h1, h2, h3, h4⟩
      simp only [fromRow5]
      exact (exc_ok _ _ _).mpr ⟨v0, h0, (exc_ok _ _ _).mpr ⟨v1, h1, (exc_ok _ _ _).mpr ⟨v2, h2, (exc_ok _ _ _).mpr ⟨v3, h3, (exc_ok _ _ _).mpr ⟨v4, h4, rfl⟩⟩⟩⟩⟩
  · intro e h
    simp only [fromRow5] at h
    rcases (exc_err _ _ _).mp h with h | ⟨w0, h0, h⟩
    · exact Or.inl h
    rcases (exc_err _ _ _).mp h with h | ⟨w1, h1, h⟩
    · exact Or.inr (Or.inl h)
    rcases (exc_err _ _ _).mp h with h | ⟨w2, h2, h⟩
    · exact Or.inr (Or.inr (Or.inl h))
    rcases (exc_err _ _ _).mp h with h | ⟨w3, h3, h⟩
    · exact Or.inr (Or.inr (Or.inr (Or.inl h)))
    rcases (exc_err _ _ _).mp h with h | ⟨w4, h4, h⟩
    · exact Or.inr (Or.inr (Or.inr (Or.inr (h))))
    cases h

theorem fromRow6_spec {α0 α1 α2 α3 α4 α5 : Type} (d0 : Decoder α0) (d1 : Decoder α1) (d2 : Decoder α2) (d3 : Decoder α3) (d4 : Decoder α4) (d5 : Decoder α5)
    (row : Row) :
    (∀ (v0 : α0) (v1 : α1) (v2 : α2) (v3 : α3) (v4 : α4) (v5 : α5),
      fromRow6 d0 d1 d2 d3 d4 d5 row = .ok (v0, v1, v2, v3, v4, v5) ↔
        (tryGet d0 row 0 = .ok v0 ∧
        tryGet d1 row 1 = .ok v1 ∧
        tryGet d2 row 2 = .ok v2 ∧
        tryGet d3 row 3 = .ok v3 ∧
        tryGet d4 row 4 = .ok v4 ∧
        tryGet d5 row 5 = .ok v5)) ∧
    (∀ e : Error, fromRow6 d0 d1 d2 d3 d4 d5 row = .error e →
      (tryGet d0 row 0 = .error e ∨
        tryGet d1 row 1 = .error e ∨
        tryGet d2 row 2 = .error e ∨
        tryGet d3 row 3 = .error e ∨
        tryGet d4 row 4 = .error e ∨
        tryGet d5 row 5 = .error e)) := by
  constructor
  · intro v0 v1 v2 v3 v4 v5
    constructor
    · intro h
      simp only [fromRow6] at h
      obtain ⟨w0, h0, h⟩ := (exc_ok _ _ _).mp h
      obtain ⟨w1, h1, h⟩ := (exc_ok _ _ _).mp h
      obtain ⟨w2, h2, h⟩ := (exc_ok _ _ _).mp h
      obtain ⟨w3, h3, h⟩ := (exc_ok _ _ _).mp h
      obtain ⟨w4, h4, h⟩ := (exc_ok _ _ _).mp h
      obtain ⟨w5, h5, h⟩ := (exc_ok _ _ _).mp h
      simp only [Except.ok.injEq, Prod.mk.injEq] at h
      obtain ⟨rfl, rfl, rfl, rfl, rfl, rfl⟩ := h
      exact ⟨h0, h1, h2, h3, h4, h5⟩
    · rintro ⟨h0, h1, h2, h3, h4, h5⟩
      simp only [fromRow6]
      exact (exc_ok _ _ _).mpr ⟨v0, h0, (exc_ok _ _ _).mpr ⟨v1, h1, (exc_ok _ _ _).mpr ⟨v2, h2, (exc_ok _ _ _).mpr ⟨v3, h3, (exc_ok _ _ _).mpr ⟨v4, h4, (exc_ok _ _ _).mpr ⟨v5, h5, rfl⟩⟩⟩⟩⟩⟩
  · intro e h
    simp only [fromRow6] at h
    rcases (exc_err _ _ _).mp h with h | ⟨w0, h0, h⟩
    · exact Or.inl h
    rcases (exc_err _ _ _).mp h with h | ⟨w1, h1, h⟩
    · exact Or.inr (Or.inl h)
    rcases (exc_err _ _ _).mp h with h | ⟨w2, h2, h⟩
    · exact Or.inr (Or.inr (Or.inl h))
    rcases (exc_err _ _ _).mp h with h | ⟨w3, h3, h⟩
    · exact Or.inr (Or.inr (Or.inr (Or.inl h)))
    rcases (exc_err _ _ _).mp h with h | ⟨w4, h4, h⟩
    · exact Or.inr (Or.inr (Or.inr (Or.inr (Or.inl h))))
    rcases (exc_err _ _ _).mp h with h | ⟨w5, h5, h⟩
    · exact Or.inr (Or.inr (Or.inr (Or.inr (Or.inr (h)))))
    cases h

theorem fromRow7_spec {α0 α1 α2 α3 α4 α5 α6 : Type} (d0 : Decoder α0) (d1 : Decoder α1) (d2 : Decoder α2) (d3 : Decoder α3) (d4 : Decoder α4) (d5 : Decoder α5) (d6 : Decoder α6)
    (row : Row) :
    (∀ (v0 : α0) (v1 : α1) (v2 : α2) (v3 : α3) (v4 : α4) (v5 : α5) (v6 : α6),
      fromRow7 d0 d1 d2 d3 d4 d5 d6 row = .ok (v0, v1, v2, v3, v4, v5, v6) ↔
        (tryGet d0 row 0 = .ok v0 ∧
        tryGet d1 row 1 = .ok v1 ∧
        tryGet d2 row 2 = .ok v2 ∧
        tryGet d3 row 3 = .ok v3 ∧
        tryGet d4 row 4 = .ok v4 ∧
        tryGet d5 row 5 = .ok v5 ∧
        tryGet d6 row 6 = .ok v6)) ∧
    (∀ e : Error, fromRow7 d0 d1 d2 d3 d4 d5 d6 row = .error e →
      (tryGet d0 row 0 = .error e ∨
        tryGet d1 row 1 = .error e ∨
        tryGet d2 row 2 = .error e ∨
        tryGet d3 row 3 = .error e ∨
        tryGet d4 row 4 = .error e ∨
        tryGet d5 row 5 = .error e ∨
        tryGet d6 row 6 = .error e)) := by
  constructor
  · intro v0 v1 v2 v3 v4 v5 v6
    constructor
    · intro h
      simp only [fromRow7] at h
      obtain ⟨w0, h0, h⟩ := (exc_ok _ _ _).mp h
      obtain ⟨w1, h1, h⟩ := (exc_ok _ _ _).mp h
      obtain ⟨w2, h2, h⟩ := (exc_ok _ _ _).mp h
      obtain ⟨w3, h3, h⟩ := (exc_ok _ _ _).mp h
      obtain ⟨w4, h4, h⟩ := (exc_ok _ _ _).mp h
      obtain ⟨w5, h5, h⟩ := (exc_ok _ _ _).mp h
      obtain ⟨w6, h6, h⟩ := (exc_ok _ _ _).mp h
      simp only [Except.ok.injEq, Prod.mk.injEq] at h
      obtain ⟨rfl, rfl, rfl, rfl, rfl, rfl, rfl⟩ := h
      exact ⟨h0, h1, h2, h3, h4, h5, h6⟩
    · rintro ⟨h0, h1, h2, h3, h4, h5, h6⟩
      simp only [fromRow7]
      exact (exc_ok _ _ _).mpr ⟨v0, h0, (exc_ok _ _ _).mpr ⟨v1, h1, (exc_ok _ _ _).mpr ⟨v2, h2, (exc_ok _ _ _).mpr ⟨v3, h3, (exc_ok _ _ _).mpr ⟨v4, h4, (exc_ok _ _ _).mpr ⟨v5, h5, (exc_ok _ _ _).mpr ⟨v6, h6, rfl⟩⟩⟩⟩⟩⟩⟩
  · intro e h
    simp only [fromRow7] at h
    rcases (exc_err _ _ _).mp h with h | ⟨w0, h0, h⟩
    · exact Or.inl h
    rcases (exc_err _ _ _).mp h with h | ⟨w1, h1, h⟩
    · exact Or.inr (Or.inl h)
    rcases (exc_err _ _ _).mp h with h | ⟨w2, h2, h⟩
    · exact Or.inr (Or.inr (Or.inl h))
    rcases (exc_err _ _ _).mp h with h | ⟨w3, h3, h⟩
    · exact Or.inr (Or.inr (Or.inr (Or.inl h)))
    rcases (exc_err _ _ _).mp h with h | ⟨w4, h4, h⟩
    · exact Or.inr (Or.inr (Or.inr (Or.inr (Or.inl h))))
    rcases (exc_err _ _ _).mp h with h | ⟨w5, h5, h⟩
    · exact Or.inr (Or.inr (Or.inr (Or.inr (Or.inr (Or.inl h)))))
    rcases (exc_err _ _ _).mp h with h | ⟨w6, h6, h⟩
    · exact Or.inr (Or.inr (Or.inr (Or.inr (Or.inr (Or.inr (h))))))
    cases h

theorem fromRow8_spec {α0 α1 α2 α3 α4 α5 α6 α7 : Type} (d0 : Decoder α0) (d1 : Decoder α1) (d2 : Decoder α2) (d3 : Decoder α3) (d4 : Decoder α4) (d5 : Decoder α5) (d6 : Decoder α6) (d7 : Decoder α7)
    (row : Row) :
    (∀ (v0 : α0) (v1 : α1) (v2 : α2) (v3 : α3) (v4 : α4) (v5 : α5) (v6 : α6) (v7 : α7),
      fromRow8 d0 d1 d2 d3 d4 d5 d6 d7 row = .ok (v0, v1, v2, v3, v4, v5, v6, v7) ↔
        (tryGet d0 row 0 = .ok v0 ∧
        tryGet d1 row 1 = .ok v1 ∧
        tryGet d2 row 2 = .ok v2 ∧
        tryGet d3 row 3 = .ok v3 ∧
        tryGet d4 row 4 = .ok v4 ∧
        tryGet d5 row 5 = .ok v5 ∧
        tryGet d6 row 6 = .ok v6 ∧
        tryGet d7 row 7 = .ok v7)) ∧
    (∀ e : Error, fromRow8 d0 d1 d2 d3 d4 d5 d6 d7 row = .error e →
      (tryGet d0 row 0 = .error e ∨
        tryGet d1 row 1 = .error e ∨
        tryGet d2 row 2 = .error e ∨
        tryGet d3 row 3 = .error e ∨
        tryGet d4 row 4 = .error e ∨
        tryGet d5 row 5 = .error e ∨
        tryGet d6 row 6 = .error e ∨
        tryGet d7 row 7 = .error e)) := by
  constructor
  · intro v0 v1 v2 v3 v4 v5 v6 v7
    constructor
    · intro h
      simp only [fromRow8] at h
      obtain ⟨w0, h0, h⟩ := (exc_ok _ _ _).mp h
      obtain ⟨w1, h1, h⟩ := (exc_ok _ _ _).mp h
      obtain ⟨w2, h2, h⟩ := (exc_ok _ _ _).mp h
      obtain ⟨w3, h3, h⟩ := (exc_ok _ _ _).mp h
      obtain ⟨w4, h4, h⟩ := (exc_ok _ _ _).mp h
      obtain ⟨w5, h5, h⟩ := (exc_ok _ _ _).mp h
      obtain ⟨w6, h6, h⟩ := (exc_ok _ _ _).mp h
      obtain ⟨w7, h7, h⟩ := (exc_ok _ _ _).mp h
      simp only [Except.ok.injEq, Prod.mk.injEq] at h
      obtain ⟨rfl, rfl, rfl, rfl, rfl, rfl, rfl, rfl⟩ := h
      exact ⟨h0, h1, h2, h3, h4, h5, h6, h7⟩
    · rintro ⟨h0, h1, h2, h3, h4, h5, h6, h7⟩
      simp only [fromRow8]
      exact (exc_ok _ _ _).mpr ⟨v0, h0, (exc_ok _ _ _).mpr ⟨v1, h1, (exc_ok _ _ _).mpr ⟨v2, h2, (exc_ok _ _ _).mpr ⟨v3, h3, (exc_ok _ _ _).mpr ⟨v4, h4, (exc_ok _ _ _).mpr ⟨v5, h5, (exc_ok _ _ _).mpr ⟨v6, h6, (exc_ok _ _ _).mpr ⟨v7, h7, rfl⟩⟩⟩⟩⟩⟩⟩⟩
  · intro e h
    simp only [fromRow8] at h
    rcases (exc_err _ _ _).mp h with h | ⟨w0, h0, h⟩
    · exact Or.inl h
    rcases (exc_err _ _ _).mp h with h | ⟨w1, h1, h⟩
    · exact Or.inr (Or.inl h)
    rcases (exc_err _ _ _).mp h with h | ⟨w2, h2, h⟩
    · exact Or.inr (Or.inr (Or.inl h))
    rcases (exc_err _ _ _).mp h with h | ⟨w3, h3, h⟩
    · exact Or.inr (Or.inr (Or.inr (Or.inl h)))
    rcases (exc_err _ _ _).mp h with h | ⟨w4, h4, h⟩
    · exact Or.inr (Or.inr (Or.inr (Or.inr (Or.inl h))))
    rcases (exc_err _ _ _).mp h with h | ⟨w5, h5, h⟩
    · exact Or.inr (Or.inr (Or.inr (Or.inr (Or.inr (Or.inl h)))))
    rcases (exc_err _ _ _).mp h with h | ⟨w6, h6, h⟩
    · exact Or.inr (Or.inr (Or.inr (Or.inr (Or.inr (Or.inr (Or.inl h))))))
    rcases (exc_err _ _ _).mp h with h | ⟨w7, h7, h⟩
    · exact Or.inr (Or.inr (Or.inr (Or.inr (Or.inr (Or.inr (Or.inr (h)))))))
    cases h

theorem fromRow9_spec {α0 α1 α2 α3 α4 α5 α6 α7 α8 : Type} (d0 : Decoder α0) (d1 : Decoder α1) (d2 : Decoder α2) (d3 : Decoder α3) (d4 : Decoder α4) (d5 : Decoder α5) (d6 : Decoder α6) (d7 : Decoder α7) (d8 : Decoder α8)
    (row : Row) :
    (∀ (v0 : α0) (v1 : α1) (v2 : α2) (v3 : α3) (v4 : α4) (v5 : α5) (v6 : α6) (v7 : α7) (v8 : α8),
      fromRow9 d0 d1 d2 d3 d4 d5 d6 d7 d8 row = .ok (v0, v1, v2, v3, v4, v5, v6, v7, v8) ↔
        (tryGet d0 row 0 = .ok v0 ∧
        tryGet d1 row 1 = .ok v1 ∧
        tryGet d2 row 2 = .ok v2 ∧
        tryGet d3 row 3 = .ok v3 ∧
        tryGet d4 row 4 = .ok v4 ∧
        tryGet d5 row 5 = .ok v5 ∧
        tryGet d6 row 6 = .ok v6 ∧
        tryGet d7 row 7 = .ok v7 ∧
        tryGet d8 row 8 = .ok v8)) ∧
    (∀ e : Error, fromRow9 d0 d1 d2 d3 d4 d5 d6 d7 d8 row = .error e →
      (tryGet d0 row 0 = .error e ∨
        tryGet d1 row 1 = .error e ∨
        tryGet d2 row 2 = .error e ∨
        tryGet d3 row 3 = .error e ∨
        tryGet d4 row 4 = .error e ∨
        tryGet d5 row 5 = .error e ∨
        tryGet d6 row 6 = .error e ∨
        tryGet d7 row 7 = .error e ∨
        tryGet d8 row 8 = .error e)) := by
  constructor
  · intro v0 v1 v2 v3 v4 v5 v6 v7 v8
    constructor
    · intro h
      simp only [fromRow9] at h
      obtain ⟨w0, h0, h⟩ := (exc_ok _ _ _).mp h
      obtain ⟨w1, h1, h⟩ := (exc_ok _ _ _).mp h
      obtain ⟨w2, h2, h⟩ := (exc_ok _ _ _).mp h
      obtain ⟨w3, h3, h⟩ := (exc_ok _ _ _).mp h
      obtain ⟨w4, h4, h⟩ := (exc_ok _ _ _).mp h
      obtain ⟨w5, h5, h⟩ := (exc_ok _ _ _).mp h
      obtain ⟨w6, h6, h⟩ := (exc_ok _ _ _).mp h
      obtain ⟨w7, h7, h⟩ := (exc_ok _ _ _).mp h
      obtain ⟨w8, h8, h⟩ := (exc_ok _ _ _).mp h
      simp only [Except.ok.injEq, Prod.mk.injEq] at h
      obtain ⟨rfl, rfl, rfl, rfl, rfl, rfl, rfl, rfl, rfl⟩ := h
      exact ⟨h0, h1, h2, h3, h4, h5, h6, h7, h8⟩
    · rintro ⟨h0, h1, h2, h3, h4, h5, h6, h7, h8⟩
      simp only [fromRow9]
      exact (exc_ok _ _ _).mpr ⟨v0, h0, (exc_ok _ _ _).mpr ⟨v1, h1, (exc_ok _ _ _).mpr ⟨v2, h2, (exc_ok _ _ _).mpr ⟨v3, h3, (exc_ok _ _ _).mpr ⟨v4, h4, (exc_ok _ _ _).mpr ⟨v5, h5, (exc_ok _ _ _).mpr ⟨v6, h6, (exc_ok _ _ _).mpr ⟨v7, h7, (exc_ok _ _ _).mpr ⟨v8, h8, rfl⟩⟩⟩⟩⟩⟩⟩⟩⟩
  · intro e h
    simp only [fromRow9] at h
    rcases (exc_err _ _ _).mp h with h | ⟨w0, h0, h⟩
    · exact Or.inl h
    rcases (exc_err _ _ _).mp h with h | ⟨w1, h1, h⟩
    · exact Or.inr (Or.inl h)
    rcases (exc_err _ _ _).mp h with h | ⟨w2, h2, h⟩
    · exact Or.inr (Or.inr (Or.inl h))
    rcases (exc_err _ _ _).mp h with h | ⟨w3, h3, h⟩
    · exact Or.inr (Or.inr (Or.inr (Or.inl h)))
    rcases (exc_err _ _ _).mp h with h | ⟨w4, h4, h⟩
    · exact Or.inr (Or.inr (Or.inr (Or.inr (Or.inl h))))
    rcases (exc_err _ _ _).mp h with h | ⟨w5, h5, h⟩
    · exact Or.inr (Or.inr (Or.inr (Or.inr (Or.inr (Or.inl h)))))
    rcases (exc_err _ _ _).mp h with h | ⟨w6, h6, h⟩
    · exact Or.inr (Or.inr (Or.inr (Or.inr (Or.inr (Or.inr (Or.inl h))))))
    rcases (exc_err _ _ _).mp h with h | ⟨w7, h7, h⟩
    · exact Or.inr (Or.inr (Or.inr (Or.inr (Or.inr (Or.inr (Or.inr (Or.inl h)))))))
    rcases (exc_err _ _ _).mp h with h | ⟨w8, h8, h⟩
    · exact Or.inr (Or.inr (Or.inr (Or.inr (Or.inr (Or.inr (Or.inr (Or.inr (h))))))))
    cases h

theorem fromRow10_spec {α0 α1 α2 α3 α4 α5 α6 α7 α8 α9 : Type} (d0 : Decoder α0) (d1 : Decoder α1) (d2 : Decoder α2) (d3 : Decoder α3) (d4 : Decoder α4) (d5 : Decoder α5) (d6 : Decoder α6) (d7 : Decoder α7) (d8 : Decoder α8) (d9 : Decoder α9)
    (row : Row) :
    (∀ (v0 : α0) (v1 : α1) (v2 : α2) (v3 : α3) (v4 : α4) (v5 : α5) (v6 : α6) (v7 : α7) (v8 : α8) (v9 : α9),
      fromRow10 d0 d1 d2 d3 d4 d5 d6 d7 d8 d9 row = .ok (v0, v1, v2, v3, v4, v5, v6, v7, v8, v9) ↔
        (tryGet d0 row 0 = .ok v0 ∧
        tryGet d1 row 1 = .ok v1 ∧
        tryGet d2 row 2 = .ok v2 ∧
        tryGet d3 row 3 = .ok v3 ∧
        tryGet d4 row 4 = .ok v4 ∧
        tryGet d5 row 5 = .ok v5 ∧
        tryGet d6 row 6 = .ok v6 ∧
        tryGet d7 row 7 = .ok v7 ∧
        tryGet d8 row 8 = .ok v8 ∧
        tryGet d9 row 9 = .ok v9)) ∧
    (∀ e : Error, fromRow10 d0 d1 d2 d3 d4 d5 d6 d7 d8 d9 row = .error e →
      (tryGet d0 row 0 = .error e ∨
        tryGet d1 row 1 = .error e ∨
        tryGet d2 row 2 = .error e ∨
        tryGet d3 row 3 = .error e ∨
        tryGet d4 row 4 = .error e ∨
        tryGet d5 row 5 = .error e ∨
        tryGet d6 row 6 = .error e ∨
        tryGet d7 row 7 = .error e ∨
        tryGet d8 row 8 = .error e ∨
        tryGet d9 row 9 = .error e)) := by
  constructor
  · intro v0 v1 v2 v3 v4 v5 v6 v7 v8 v9
    constructor
    · intro h
      simp only [fromRow10] at h
      obtain ⟨w0, h0, h⟩ := (exc_ok _ _ _).mp h
      obtain ⟨w1, h1, h⟩ := (exc_ok _ _ _).mp h
      obtain ⟨w2, h2, h⟩ := (exc_ok _ _ _).mp h
      obtain ⟨w3, h3, h⟩ := (exc_ok _ _ _).mp h
      obtain ⟨w4, h4, h⟩ := (exc_ok _ _ _).mp h
      obtain ⟨w5, h5, h⟩ := (exc_ok _ _ _).mp h
      obtain ⟨w6, h6, h⟩ := (exc_ok _ _ _).mp h
      obtain ⟨w7, h7, h⟩ := (exc_ok _ _ _).mp h
      obtain ⟨w8, h8, h⟩ := (exc_ok _ _ _).mp h
      obtain ⟨w9, h9, h⟩ := (exc_ok _ _ _).mp h
      simp only [Except.ok.injEq, Prod.mk.injEq] at h
      obtain ⟨rfl, rfl, rfl, rfl, rfl, rfl, rfl, rfl, rfl, rfl⟩ := h
      exact ⟨h0, h1, h2, h3, h4, h5, h6, h7, h8, h9⟩
    · rintro ⟨h0, h1, h2, h3, h4, h5, h6, h7, h8, h9⟩
      simp only [fromRow10]
      exact (exc_ok _ _ _).mpr ⟨v0, h0, (exc_ok _ _ _).mpr ⟨v1, h1, (exc_ok _ _ _).mpr ⟨v2, h2, (exc_ok _ _ _).mpr ⟨v3, h3, (exc_ok _ _ _).mpr ⟨v4, h4, (exc_ok _ _ _).mpr ⟨v5, h5, (exc_ok _ _ _).mpr ⟨v6, h6, (exc_ok _ _ _).mpr ⟨v7, h7, (exc_ok _ _ _).mpr ⟨v8, h8, (exc_ok _ _ _).mpr ⟨v9, h9, rfl⟩⟩⟩⟩⟩⟩⟩⟩⟩⟩
  · intro e h
    simp only [fromRow10] at h
    rcases (exc_err _ _ _).mp h with h | ⟨w0, h0, h⟩
    · exact Or.inl h
    rcases (exc_err _ _ _).mp h with h | ⟨w1, h1, h⟩
    · exact Or.inr (Or.inl h)
    rcases (exc_err _ _ _).mp h with h | ⟨w2, h2, h⟩
    · exact Or.inr (Or.inr (Or.inl h))
    rcases (exc_err _ _ _).mp h with h | ⟨w3, h3, h⟩
    · exact Or.inr (Or.inr (Or.inr (Or.inl h)))
    rcases (exc_err _ _ _).mp h with h | ⟨w4, h4, h⟩
    · exact Or.inr (Or.inr (Or.inr (Or.inr (Or.inl h))))
    rcases (exc_err _ _ _).mp h with h | ⟨w5, h5, h⟩
    · exact Or.inr (Or.inr (Or.inr (Or.inr (Or.inr (Or.inl h)))))
    rcases (exc_err _ _ _).mp h with h | ⟨w6, h6, h⟩
    · exact Or.inr (Or.inr (Or.inr (Or.inr (Or.inr (Or.inr (Or.inl h))))))
    rcases (exc_err _ _ _).mp h with h | ⟨w7, h7, h⟩
    · exact Or.inr (Or.inr (Or.inr (Or.inr (Or.inr (Or.inr (Or.inr (Or.inl h)))))))
    rcases (exc_err _ _ _).mp h with h | ⟨w8, h8, h⟩
    · exact Or.inr (Or.inr (Or.inr (Or.inr (Or.inr (Or.inr (Or.inr (Or.inr (Or.inl h))))))))
    rcases (exc_err _ _ _).mp h with h | ⟨w9, h9, h⟩
    · exact Or.inr (Or.inr (Or.inr (Or.inr (Or.inr (Or.inr (Or.inr (Or.inr (Or.inr (h)))))))))
    cases h

/-- C9: for every tuple arity 1 through 10, `from_row` resolves element
i to source column i and invokes that column's decode: the conversion
succeeds with the fully populated tuple exactly when every column's
decode succeeds with the corresponding element (so no partial tuple is
ever returned), and when the conversion fails its error is the error of
one of the columns' `try_get` (the first faulting one). -/
theorem c9 :
    (∀ (α0 : Type) (d0 : Decoder α0)
      (row : Row),
      (∀ (v0 : α0),
        fromRow1 d0 row = .ok v0 ↔
          tryGet d0 row 0 = .ok v0) ∧
      (∀ e : Error, fromRow1 d0 row = .error e →
        tryGet d0 row 0 = .error e)) ∧
    (∀ (α0 : Type) (α1 : Type) (d0 : Decoder α0) (d1 : Decoder α1)
      (row : Row),
      (∀ (v0 : α0) (v1 : α1),
        fromRow2 d0 d1 row = .ok (v0, v1) ↔
          (tryGet d0 row 0 = .ok v0 ∧
          tryGet d1 row 1 = .ok v1)) ∧
      (∀ e : Error, fromRow2 d0 d1 row = .error e →
        (tryGet d0 row 0 = .error e ∨
          tryGet d1 row 1 = .error e))) ∧
    (∀ (α0 : Type) (α1 : Type) (α2 : Type) (d0 : Decoder α0) (d1 : Decoder α1) (d2 : Decoder α2)
      (row : Row),
      (∀ (v0 : α0) (v1 : α1) (v2 : α2),
        fromRow3 d0 d1 d2 row = .ok (v0, v1, v2) ↔
          (tryGet d0 row 0 = .ok v0 ∧
          tryGet d1 row 1 = .ok v1 ∧
          tryGet d2 row 2 = .ok v2)) ∧
      (∀ e : Error, fromRow3 d0 d1 d2 row = .error e →
        (tryGet d0 row 0 = .error e ∨
          tryGet d1 row 1 = .error e ∨
          tryGet d2 row 2 = .error e))) ∧
    (∀ (α0 : Type) (α1 : Type) (α2 : Type) (α3 : Type) (d0 : Decoder α0) (d1 : Decoder α1) (d2 : Decoder α2) (d3 : Decoder α3)
      (row : Row),
      (∀ (v0 : α0) (v1 : α1) (v2 : α2) (v3 : α3),
        fromRow4 d0 d1 d2 d3 row = .ok (v0, v1, v2, v3) ↔
          (tryGet d0 row 0 = .ok v0 ∧
          tryGet d1 row 1 = .ok v1 ∧
          tryGet d2 row 2 = .ok v2 ∧
          tryGet d3 row 3 = .ok v3)) ∧
      (∀ e : Error, fromRow4 d0 d1 d2 d3 row = .error e →
        (tryGet d0 row 0 = .error e ∨
          tryGet d1 row 1 = .error e ∨
          tryGet d2 row 2 = .error e ∨
          tryGet d3 row 3 = .error e))) ∧
    (∀ (α0 : Type) (α1 : Type) (α2 : Type) (α3 : Type) (α4 : Type) (d0 : Decoder α0) (d1 : Decoder α1) (d2 : Decoder α2) (d3 : Decoder α3) (d4 : Decoder α4)
      (row : Row),
      (∀ (v0 : α0) (v1 : α1) (v2 : α2) (v3 : α3) (v4 : α4),
        fromRow5 d0 d1 d2 d3 d4 row = .ok (v0, v1, v2, v3, v4) ↔
          (tryGet d0 row 0 = .ok v0 ∧
          tryGet d1 row 1 = .ok v1 ∧
          tryGet d2 row 2 = .ok v2 ∧
          tryGet d3 row 3 = .ok v3 ∧
          tryGet d4 row 4 = .ok v4)) ∧
      (∀ e : Error, fromRow5 d0 d1 d2 d3 d4 row = .error e →
        (tryGet d0 row 0 = .error e ∨
          tryGet d1 row 1 = .error e ∨
          tryGet d2 row 2 = .error e ∨
          tryGet d3 row 3 = .error e ∨
          tryGet d4 row 4 = .error e))) ∧
    (∀ (α0 : Type) (α1 : Type) (α2 : Type) (α3 : Type) (α4 : Type) (α5 : Type) (d0 : Decoder α0) (d1 : Decoder α1) (d2 : Decoder α2) (d3 : Decoder α3) (d4 : Decoder α4) (d5 : Decoder α5)
      (row : Row),
      (∀ (v0 : α0) (v1 : α1) (v2 : α2) (v3 : α3) (v4 : α4) (v5 : α5),
        fromRow6 d0 d1 d2 d3 d4 d5 row = .ok (v0, v1, v2, v3, v4, v5) ↔
          (tryGet d0 row 0 = .ok v0 ∧
          tryGet d1 row 1 = .ok v1 ∧
          tryGet d2 row 2 = .ok v2 ∧
          tryGet d3 row 3 = .ok v3 ∧
          tryGet d4 row 4 = .ok v4 ∧
          tryGet d5 row 5 = .ok v5)) ∧
      (∀ e : Error, fromRow6 d0 d1 d2 d3 d4 d5 row = .error e →
        (tryGet d0 row 0 = .error e ∨
          tryGet d1 row 1 = .error e ∨
          tryGet d2 row 2 = .error e ∨
          tryGet d3 row 3 = .error e ∨
          tryGet d4 row 4 = .error e ∨
          tryGet d5 row 5 = .error e))) ∧
    (∀ (α0 : Type) (α1 : Type) (α2 : Type) (α3 : Type) (α4 : Type) (α5 : Type) (α6 : Type) (d0 : Decoder α0) (d1 : Decoder α1) (d2 : Decoder α2) (d3 : Decoder α3) (d4 : Decoder α4) (d5 : Decoder α5) (d6 : Decoder α6)
      (row : Row),
      (∀ (v0 : α0) (v1 : α1) (v2 : α2) (v3 : α3) (v4 : α4) (v5 : α5) (v6 : α6),
        fromRow7 d0 d1 d2 d3 d4 d5 d6 row = .ok (v0, v1, v2, v3, v4, v5, v6) ↔
          (tryGet d0 row 0 = .ok v0 ∧
          tryGet d1 row 1 = .ok v1 ∧
          tryGet d2 row 2 = .ok v2 ∧
          tryGet d3 row 3 = .ok v3 ∧
          tryGet d4 row 4 = .ok v4 ∧
          tryGet d5 row 5 = .ok v5 ∧
          tryGet d6 row 6 = .ok v6)) ∧
      (∀ e : Error, fromRow7 d0 d1 d2 d3 d4 d5 d6 row = .error e →
        (tryGet d0 row 0 = .error e ∨
          tryGet d1 row 1 = .error e ∨
          tryGet d2 row 2 = .error e ∨
          tryGet d3 row 3 = .error e ∨
          tryGet d4 row 4 = .error e ∨
          tryGet d5 row 5 = .error e ∨
          tryGet d6 row 6 = .error e))) ∧
    (∀ (α0 : Type) (α1 : Type) (α2 : Type) (α3 : Type) (α4 : Type) (α5 : Type) (α6 : Type) (α7 : Type) (d0 : Decoder α0) (d1 : Decoder α1) (d2 : Decoder α2) (d3 : Decoder α3) (d4 : Decoder α4) (d5 : Decoder α5) (d6 : Decoder α6) (d7 : Decoder α7)
      (row : Row),
      (∀ (v0 : α0) (v1 : α1) (v2 : α2) (v3 : α3) (v4 : α4) (v5 : α5) (v6 : α6) (v7 : α7),
        fromRow8 d0 d1 d2 d3 d4 d5 d6 d7 row = .ok (v0, v1, v2, v3, v4, v5, v6, v7) ↔
          (tryGet d0 row 0 = .ok v0 ∧
          tryGet d1 row 1 = .ok v1 ∧
          tryGet d2 row 2 = .ok v2 ∧
          tryGet d3 row 3 = .ok v3 ∧
          tryGet d4 row 4 = .ok v4 ∧
          tryGet d5 row 5 = .ok v5 ∧
          tryGet d6 row 6 = .ok v6 ∧
          tryGet d7 row 7 = .ok v7)) ∧
      (∀ e : Error, fromRow8 d0 d1 d2 d3 d4 d5 d6 d7 row = .error e →
        (tryGet d0 row 0 = .error e ∨
          tryGet d1 row 1 = .error e ∨
          tryGet d2 row 2 = .error e ∨
          tryGet d3 row 3 = .error e ∨
          tryGet d4 row 4 = .error e ∨
          tryGet d5 row 5 = .error e ∨
          tryGet d6 row 6 = .error e ∨
          tryGet d7 row 7 = .error e))) ∧
    (∀ (α0 : Type) (α1 : Type) (α2 : Type) (α3 : Type) (α4 : Type) (α5 : Type) (α6 : Type) (α7 : Type) (α8 : Type) (d0 : Decoder α0) (d1 : Decoder α1) (d2 : Decoder α2) (d3 : Decoder α3) (d4 : Decoder α4) (d5 : Decoder α5) (d6 : Decoder α6) (d7 : Decoder α7) (d8 : Decoder α8)
      (row : Row),
      (∀ (v0 : α0) (v1 : α1) (v2 : α2) (v3 : α3) (v4 : α4) (v5 : α5) (v6 : α6) (v7 : α7) (v8 : α8),
        fromRow9 d0 d1 d2 d3 d4 d5 d6 d7 d8 row = .ok (v0, v1, v2, v3, v4, v5, v6, v7, v8) ↔
          (tryGet d0 row 0 = .ok v0 ∧
          tryGet d1 row 1 = .ok v1 ∧
          tryGet d2 row 2 = .ok v2 ∧
          tryGet d3 row 3 = .ok v3 ∧
          tryGet d4 row 4 = .ok v4 ∧
          tryGet d5 row 5 = .ok v5 ∧
          tryGet d6 row 6 = .ok v6 ∧
          tryGet d7 row 7 = .ok v7 ∧
          tryGet d8 row 8 = .ok v8)) ∧
      (∀ e : Error, fromRow9 d0 d1 d2 d3 d4 d5 d6 d7 d8 row = .error e →
        (tryGet d0 row 0 = .error e ∨
          tryGet d1 row 1 = .error e ∨
          tryGet d2 row 2 = .error e ∨
          tryGet d3 row 3 = .error e ∨
          tryGet d4 row 4 = .error e ∨
          tryGet d5 row 5 = .error e ∨
          tryGet d6 row 6 = .error e ∨
          tryGet d7 row 7 = .error e ∨
          tryGet d8 row 8 = .error e))) ∧
    (∀ (α0 : Type) (α1 : Type) (α2 : Type) (α3 : Type) (α4 : Type) (α5 : Type) (α6 : Type) (α7 : Type) (α8 : Type) (α9 : Type) (d0 : Decoder α0) (d1 : Decoder α1) (d2 : Decoder α2) (d3 : Decoder α3) (d4 : Decoder α4) (d5 : Decoder α5) (d6 : Decoder α6) (d7 : Decoder α7) (d8 : Decoder α8) (d9 : Decoder α9)
      (row : Row),
      (∀ (v0 : α0) (v1 : α1) (v2 : α2) (v3 : α3) (v4 : α4) (v5 : α5) (v6 : α6) (v7 : α7) (v8 : α8) (v9 : α9),
        fromRow10 d0 d1 d2 d3 d4 d5 d6 d7 d8 d9 row = .ok (v0, v1, v2, v3, v4, v5, v6, v7, v8, v9) ↔
          (tryGet d0 row 0 = .ok v0 ∧
          tryGet d1 row 1 = .ok v1 ∧
          tryGet d2 row 2 = .ok v2 ∧
          tryGet d3 row 3 = .ok v3 ∧
          tryGet d4 row 4 = .ok v4 ∧
          tryGet d5 row 5 = .ok v5 ∧
          tryGet d6 row 6 = .ok v6 ∧
          tryGet d7 row 7 = .ok v7 ∧
          tryGet d8 row 8 = .ok v8 ∧
          tryGet d9 row 9 = .ok v9)) ∧
      (∀ e : Error, fromRow10 d0 d1 d2 d3 d4 d5 d6 d7 d8 d9 row = .error e →
        (tryGet d0 row 0 = .error e ∨
          tryGet d1 row 1 = .error e ∨
          tryGet d2 row 2 = .error e ∨
          tryGet d3 row 3 = .error e ∨
          tryGet d4 row 4 = .error e ∨
          tryGet d5 row 5 = .error e ∨
          tryGet d6 row 6 = .error e ∨
          tryGet d7 row 7 = .error e ∨
          tryGet d8 row 8 = .error e ∨
          tryGet d9 row 9 = .error e))) :=
  ⟨fun _ d0 row => fromRow1_spec d0 row,
   fun _ _ d0 d1 row => fromRow2_spec d0 d1 row,
   fun _ _ _ d0 d1 d2 row => fromRow3_spec d0 d1 d2 row,
   fun _ _ _ _ d0 d1 d2 d3 row => fromRow4_spec d0 d1 d2 d3 row,
   fun _ _ _ _ _ d0 d1 d2 d3 d4 row => fromRow5_spec d0 d1 d2 d3 d4 row,
   fun _ _ _ _ _ _ d0 d1 d2 d3 d4 d5 row => fromRow6_spec d0 d1 d2 d3 d4 d5 row,
   fun _ _ _ _ _ _ _ d0 d1 d2 d3 d4 d5 d6 row => fromRow7_spec d0 d1 d2 d3 d4 d5 d6 row,
   fun _ _ _ _ _ _ _ _ d0 d1 d2 d3 d4 d5 d6 d7 row => fromRow8_spec d0 d1 d2 d3 d4 d5 d6 d7 row,
   fun _ _ _ _ _ _ _ _ _ d0 d1 d2 d3 d4 d5 d6 d7 d8 row => fromRow9_spec d0 d1 d2 d3 d4 d5 d6 d7 d8 row,
   fun _ _ _ _ _ _ _ _ _ _ d0 d1 d2 d3 d4 d5 d6 d7 d8 d9 row => fromRow10_spec d0 d1 d2 d3 d4 d5 d6 d7 d8 d9 row⟩

/-- Witness for C9 at a concrete two-column row whose second cell is
SQL NULL under a non-nullable decoder: the conversion fails atomically
with that column's decode fault (index 1). -/
theorem c9_witness :
    fromRow2 decNat decNat rowBad =
        .error (Error.mk (Kind.FromSql 1 "unexpected null")) ∧
      (tryGet decNat rowBad 0 =
          .error (Error.mk (Kind.FromSql 1 "unexpected null")) ∨
        tryGet decNat rowBad 1 =
          .error (Error.mk (Kind.FromSql 1 "unexpected null"))) :=
  ⟨by rfl,
    (c9.2.1 Nat Nat decNat decNat rowBad).2
      (Error.mk (Kind.FromSql 1 "unexpected null")) (by rfl)⟩

end Pg
